import Mathlib

set_option maxHeartbeats 1000000
set_option autoImplicit false

/- Shallow embedding of the reaper-arpad OSC control surface
   (src/lib.rs, src/osc_routes.rs, src/polling.rs, src/utils.rs).

   Wire addresses are lists of characters; a segment is the text between
   slashes.  Machine floats (f64/f32) are embedded as rationals; the
   REAPER engine's numeric curves (slider/db conversions) are opaque
   function parameters of the backend, since the engine itself is an
   external collaborator of this repository. -/

/-- A path segment (and, in general, a piece of wire text). -/
abbrev Seg : Type := List Char

/-- Convenience: the character list of a string literal. -/
def seg (s : String) : Seg := s.data

/-- Embeds the `addr.split('/')` step of `parse_osc_address` (src/lib.rs):
Rust `str::split` cuts the text at every separator, keeping empty pieces. -/
def splitSlashAux : List Char → List Char → List Seg
  | [], acc => [acc.reverse]
  | c :: rest, acc =>
    if c = '/' then acc.reverse :: splitSlashAux rest []
    else splitSlashAux rest (c :: acc)

/-- `addr.split('/')` from src/lib.rs `parse_osc_address`. -/
def splitSlash (addr : List Char) : List Seg := splitSlashAux addr []

/-- Embeds `parse_osc_address` (src/lib.rs line 260): split on the slash and
drop the empty segments. -/
def parse_osc_address (addr : List Char) : List Seg :=
  (splitSlash addr).filter (fun s => !s.isEmpty)

/-- Inverse of splitting: re-joins segments with a slash between consecutive
segments (used only to state that `splitSlash` is the exact slash-separated
decomposition of the input). -/
def joinSlash : List Seg → List Char
  | [] => []
  | [s] => s
  | s :: rest => s ++ '/' :: joinSlash rest

theorem splitSlashAux_ne_nil (s acc : List Char) : splitSlashAux s acc ≠ [] := by
  induction s generalizing acc with
  | nil => simp [splitSlashAux]
  | cons c rest ih =>
    by_cases hc : c = '/'
    · simp [splitSlashAux, hc]
    · simpa [splitSlashAux, hc] using ih (c :: acc)

theorem splitSlashAux_no_slash (xs : List Char) (acc : List Char) (h : '/' ∉ xs) :
    splitSlashAux xs acc = [acc.reverse ++ xs] := by
  induction xs generalizing acc with
  | nil => simp [splitSlashAux]
  | cons c rest ih =>
    have hc : ¬ c = '/' := fun hEq => h (by simp [hEq])
    have hrest : '/' ∉ rest := fun hm => h (by simp [hm])
    rw [splitSlashAux, if_neg hc, ih _ hrest]
    simp

theorem splitSlashAux_append_slash (xs : List Char) (rest acc : List Char)
    (h : '/' ∉ xs) :
    splitSlashAux (xs ++ '/' :: rest) acc =
      (acc.reverse ++ xs) :: splitSlashAux rest [] := by
  induction xs generalizing acc with
  | nil => simp [splitSlashAux]
  | cons c tail ih =>
    have hc : ¬ c = '/' := fun hEq => h (by simp [hEq])
    have htail : '/' ∉ tail := fun hm => h (by simp [hm])
    rw [List.cons_append, splitSlashAux, if_neg hc, ih _ htail]
    simp

theorem joinSlash_cons_cons (s t : Seg) (rest : List Seg) :
    joinSlash (s :: t :: rest) = s ++ '/' :: joinSlash (t :: rest) := rfl

theorem joinSlash_splitSlashAux (s acc : List Char) :
    joinSlash (splitSlashAux s acc) = acc.reverse ++ s := by
  induction s generalizing acc with
  | nil => simp [splitSlashAux, joinSlash]
  | cons c rest ih =>
    by_cases hc : c = '/'
    · subst hc
      rw [splitSlashAux, if_pos rfl]
      have h1 := ih []
      cases hsp : splitSlashAux rest [] with
      | nil => exact absurd hsp (splitSlashAux_ne_nil rest [])
      | cons x xs =>
        rw [hsp] at h1
        rw [joinSlash_cons_cons, h1]
        simp
    · rw [splitSlashAux, if_neg hc, ih (c :: acc)]
      simp

theorem splitSlash_join (addr : List Char) : joinSlash (splitSlash addr) = addr := by
  simpa using joinSlash_splitSlashAux addr []

theorem splitSlashAux_no_slash_mem (s : List Char) (acc : List Char)
    (hacc : '/' ∉ acc) : ∀ t ∈ splitSlashAux s acc, '/' ∉ t := by
  induction s generalizing acc with
  | nil =>
    intro t ht
    simp [splitSlashAux] at ht
    subst ht
    simpa using hacc
  | cons c rest ih =>
    intro t ht
    by_cases hc : c = '/'
    · rw [splitSlashAux, if_pos hc] at ht
      rcases List.mem_cons.mp ht with h1 | h2
      · subst h1; simpa using hacc
      · exact ih [] (by simp) t h2
    · rw [splitSlashAux, if_neg hc] at ht
      refine ih (c :: acc) ?_ t ht
      intro hm
      rcases List.mem_cons.mp hm with h1 | h2
      · exact hc h1.symm
      · exact hacc h2

theorem splitSlash_no_slash (addr : List Char) : ∀ t ∈ splitSlash addr, '/' ∉ t :=
  splitSlashAux_no_slash_mem addr [] (by simp)

theorem parse_cons_slash (s : List Char) :
    parse_osc_address ('/' :: s) = parse_osc_address s := by
  rw [parse_osc_address, parse_osc_address, splitSlash, splitSlash, splitSlashAux,
    if_pos rfl]
  simp

theorem parse_no_slash (xs : List Char) (hne : xs ≠ []) (h : '/' ∉ xs) :
    parse_osc_address xs = [xs] := by
  rw [parse_osc_address, splitSlash, splitSlashAux_no_slash xs [] h]
  simp [List.isEmpty_iff, hne]

theorem parse_seg_slash (xs rest : List Char) (hne : xs ≠ []) (h : '/' ∉ xs) :
    parse_osc_address (xs ++ '/' :: rest) = xs :: parse_osc_address rest := by
  rw [parse_osc_address, splitSlash, splitSlashAux_append_slash xs rest [] h]
  simp [parse_osc_address, splitSlash, List.isEmpty_iff, hne]

theorem filter_splitSlashAux_trailing (a acc : List Char) :
    (splitSlashAux (a ++ ['/']) acc).filter (fun s => !s.isEmpty) =
      (splitSlashAux a acc).filter (fun s => !s.isEmpty) := by
  induction a generalizing acc with
  | nil => simp [splitSlashAux, List.filter_cons]
  | cons c rest ih =>
    by_cases hc : c = '/'
    · simp only [List.cons_append, splitSlashAux, if_pos hc]
      simp only [List.filter_cons, List.append_eq]
      rw [ih []]
    · simp only [List.cons_append, splitSlashAux, if_neg hc]
      exact ih (c :: acc)

theorem filter_splitSlashAux_double (a b acc : List Char) :
    (splitSlashAux (a ++ '/' :: '/' :: b) acc).filter (fun s => !s.isEmpty) =
      (splitSlashAux (a ++ '/' :: b) acc).filter (fun s => !s.isEmpty) := by
  induction a generalizing acc with
  | nil => simp [splitSlashAux, List.filter_cons]
  | cons c rest ih =>
    by_cases hc : c = '/'
    · simp only [List.cons_append, splitSlashAux, if_pos hc]
      simp only [List.filter_cons, List.append_eq]
      rw [ih []]
    · simp only [List.cons_append, splitSlashAux, if_neg hc]
      exact ih (c :: acc)

theorem parse_trailing_slash (a : List Char) :
    parse_osc_address (a ++ ['/']) = parse_osc_address a :=
  filter_splitSlashAux_trailing a []

theorem parse_double_slash (a b : List Char) :
    parse_osc_address (a ++ '/' :: '/' :: b) = parse_osc_address (a ++ '/' :: b) :=
  filter_splitSlashAux_double a b []

/-! ## Wire data model (rosc) -/

/-- OSC argument values (rosc `OscType`, restricted to the variants the
routes use: Int, Float, Bool, String).  Floats are embedded as rationals. -/
inductive OscType : Type
  | int (i : Int)
  | float (f : ℚ)
  | bool (b : Bool)
  | string (s : Seg)
deriving DecidableEq

/-- rosc accessor `OscType::int()`: the payload exactly when the value is
an Int. -/
def OscType.asInt : OscType → Option Int
  | .int i => some i
  | _ => none

/-- rosc accessor `OscType::float()`. -/
def OscType.asFloat : OscType → Option ℚ
  | .float f => some f
  | _ => none

/-- rosc accessor `OscType::string()`. -/
def OscType.asString : OscType → Option Seg
  | .string s => some s
  | _ => none

/-- rosc `OscMessage`: an address plus positional typed arguments. -/
structure OscMessage where
  addr : List Char
  args : List OscType
deriving DecidableEq

/-- rosc `OscPacket`: a single message or a bundle. -/
inductive OscPacket : Type
  | message (msg : OscMessage)
  | bundle (content : List OscPacket)

/-! ## Error taxonomy (src/lib.rs lines 64-97) -/

/-- `RouteError` (src/lib.rs). -/
inductive RouteError : Type
  | guidNotFound (guid : Seg)
  | valueNotFound (what : Seg)
deriving DecidableEq

/-- `ReceiverError` (src/lib.rs). -/
inductive ReceiverError : Type
  | route (e : RouteError)
  | badValue (what : Seg)
  | reaper
deriving DecidableEq

/-- How one call to a route's `receive` ends: normally, with a returned
error, or with a Rust panic (`unwrap` on `None` / index out of bounds). -/
inductive Outcome : Type
  | ok
  | err (e : ReceiverError)
  | panicked
deriving DecidableEq

/-! ## Backend model (the REAPER session, an external collaborator) -/

/-- The numeric track attribute keys the routes use
(reaper_medium `TrackAttributeKey`). -/
inductive AttrKey : Type
  | trackNumber | selected | vol | pan | mute | solo | recArm
deriving DecidableEq

/-- One outgoing routing connection of a track.  The destination track
handle is modelled by its GUID, which is the only thing the code reads
from it (`get_track_guid` on the `desttrack`). -/
structure SendInfo where
  destGuid : Seg
  vol : ℚ
  pan : ℚ
deriving DecidableEq

/-- One REAPER track as the backend exposes it to this plugin.  A
`MediaTrack` handle is modelled by the track value itself; numeric
attributes (f64 in REAPER) are rationals; `name` is `none` when the
engine reports no name. -/
structure Track where
  guid : Seg
  name : Option Seg
  trackNumber : Int
  vol : ℚ
  pan : ℚ
  mute : ℚ
  solo : ℚ
  recArm : ℚ
  selected : ℚ
  color : Int
  sends : List SendInfo
deriving DecidableEq

/-- The engine's numeric curves, consumed by the volume routes as opaque
pure functions: `slider2db` and `db2slider` (Reaper methods),
`dbToLinear` (`Db::to_linear_volume_value`) and `linearToDb`
(`ReaperVolumeValue::to_db_ex`).  They live in the external REAPER
engine, outside this repository; the claims only concern which of them
a route composes. -/
structure Engine where
  slider2db : ℚ → ℚ
  db2slider : ℚ → ℚ
  dbToLinear : ℚ → ℚ
  linearToDb : ℚ → ℚ

/-- The REAPER session state visible to the routes: a distinguished
master track plus the project tracks in mixer order (`count_tracks` /
`get_track`). -/
structure Backend where
  engine : Engine
  masterTrack : Track
  tracks : List Track

/-- `reaper_medium::VolumeSliderValue::TWELVE_DB.get()`: the fixed
reference constant the track-volume route scales by.  The constant lives
in the external reaper-medium crate; every claim is insensitive to its
actual value, only to it being one fixed nonzero constant. -/
def volumeSliderTwelveDb : ℚ := 1000

/-- `get_track_guid` (src/utils.rs, src/lib.rs): the track's stable GUID
string.  The GUID-formatting step collapses because handles are modelled
by track values carrying their GUID. -/
def get_track_guid (t : Track) : Seg := t.guid

/-- `get_media_track_info_value` reads of the numeric attributes. -/
def get_media_track_info_value (t : Track) : AttrKey → ℚ
  | .trackNumber => (t.trackNumber : ℚ)
  | .selected => t.selected
  | .vol => t.vol
  | .pan => t.pan
  | .mute => t.mute
  | .solo => t.solo
  | .recArm => t.recArm

/-- `get_track_by_guid` (src/lib.rs lines 50-62): the master track is
checked first, then the project tracks in order; `GuidNotFound` when no
track carries the GUID. -/
def get_track_by_guid (b : Backend) (guid : Seg) : Except RouteError Track :=
  if get_track_guid b.masterTrack = guid then .ok b.masterTrack
  else
    match b.tracks.find? (fun t => get_track_guid t == guid) with
    | some t => .ok t
    | none => .error (.guidNotFound guid)

theorem get_track_by_guid_guid (b : Backend) (g : Seg) (t : Track)
    (h : get_track_by_guid b g = .ok t) : get_track_guid t = g := by
  unfold get_track_by_guid at h
  by_cases hm : get_track_guid b.masterTrack = g
  · rw [if_pos hm] at h
    cases h
    exact hm
  · rw [if_neg hm] at h
    cases hf : b.tracks.find? (fun t => get_track_guid t == g) with
    | none => rw [hf] at h; cases h
    | some t2 =>
      rw [hf] at h
      injection h with h2
      subst h2
      simpa using List.find?_some hf

/-! ## Numbers on the wire -/

/-- Base-10 digit accumulation for `parseI32`. -/
def parseDigitsAux : List Char → Nat → Option Nat
  | [], acc => some acc
  | c :: rest, acc =>
    if c.isDigit then parseDigitsAux rest (acc * 10 + (c.toNat - '0'.toNat))
    else none

/-- A nonempty all-digit run read as a number. -/
def parseDigits : List Char → Option Nat
  | [] => none
  | s => parseDigitsAux s 0

/-- Rust `i32::from_str` (the `send_index.parse()` of the send-route
matchers): optional sign, then decimal digits; rejects the empty string,
stray characters, and values outside the i32 range. -/
def parseI32 (s : Seg) : Option Int :=
  match s with
  | '+' :: rest =>
    (parseDigits rest).bind fun n => if n < 2 ^ 31 then some (n : Int) else none
  | '-' :: rest =>
    (parseDigits rest).bind fun n => if n ≤ 2 ^ 31 then some (-(n : Int)) else none
  | _ =>
    (parseDigits s).bind fun n => if n < 2 ^ 31 then some (n : Int) else none

/-- Decimal rendering of a `u32` (what Rust `format!` prints for one). -/
def natRepr (n : Nat) : Seg := (toString n).data

/-- Decimal rendering of an `i32` (what Rust `format!` prints for one). -/
def intRepr (i : Int) : Seg := (toString i).data

/-- Rust `expr as u32` on an i32: two's-complement wrap into `0 ..< 2^32`. -/
def u32cast (i : Int) : Nat := (i % 2 ^ 32).toNat

/-- Rust `u32::try_from` on an i32: succeeds exactly on nonnegative input. -/
def u32TryFrom (i : Int) : Option Nat :=
  if 0 ≤ i then some i.toNat else none

/-! ## Effects: the backend mutations a `receive` can perform -/

/-- A backend write performed by a route's `receive`, recorded together
with the arguments passed to the engine call. -/
inductive Effect : Type
  | setTrackInfoValue (trackGuid : Seg) (key : AttrKey) (value : ℚ)
  | setName (trackGuid : Seg) (name : Seg)
  | setCustomColor (trackGuid : Seg) (color : Int) (isUsed : Bool)
  | csurfOnVolumeChange (trackGuid : Seg) (volume : ℚ)
  | setTrackSendUiVol (trackGuid : Seg) (sendIndex : Nat) (volume : ℚ)
  | setTrackSendUiPan (trackGuid : Seg) (sendIndex : Nat) (pan : ℚ)
deriving DecidableEq

/-- The result of one `receive` call: the mutations performed and how
the call ended. -/
structure RecvResult where
  effects : List Effect
  outcome : Outcome
deriving DecidableEq

/-- Modelled from the external engine interface:
`ReaperVolumeValue::new` rejects invalid (negative) linear volume values
and the send-volume route maps the rejection to `BadValue`.  No claim
depends on the exact accepted range, only on the checked construction
being fallible. -/
def reaperVolumeValueNew (v : ℚ) : Option ℚ :=
  if 0 ≤ v then some v else none

/-- Modelled from the external engine interface: `ReaperPanValue::new`
accepts exactly the pan range -1 to 1. -/
def reaperPanValueNew (v : ℚ) : Option ℚ :=
  if -1 ≤ v ∧ v ≤ 1 then some v else none

/-- Out-of-range send reads return 0.0 in the external engine;
`get_track_send_info_value` restricted to the Vol/Pan keys the code uses. -/
def get_track_send_info_vol (t : Track) (i : Nat) : ℚ :=
  match t.sends.get? i with
  | some s => s.vol
  | none => 0

/-- See `get_track_send_info_vol`; the Pan key. -/
def get_track_send_info_pan (t : Track) (i : Nat) : ℚ :=
  match t.sends.get? i with
  | some s => s.pan
  | none => 0

/-- `get_track_send_info_desttrack`: the destination of send `i`,
modelled by its GUID (the code's only use of the returned handle is
`get_track_guid`); errors out of range. -/
def get_track_send_info_desttrack (t : Track) (i : Nat) : Option Seg :=
  (t.sends.get? i).map (fun s => s.destGuid)


/-! ## The Route contract (`OscRoute`, src/lib.rs lines 99-115) -/

/-- The `OscRoute` trait: `matcher`, `receive` (decode-and-apply),
`build_message` (encode-for-send), `collect_send_params` (read current
state for a query). -/
structure Route (P S : Type) where
  matcher : List Seg → Option P
  receive : P → OscMessage → Backend → RecvResult
  build_message : S → Backend → OscMessage
  collect_send_params : P → Backend → Except RouteError S

/-! ## Route receive/send parameter shapes (src/osc_routes.rs) -/

structure TrackIndexParams where
  track_guid : Seg
deriving DecidableEq

structure TrackIndexArgs where
  track : Track
  index : Int
deriving DecidableEq

structure TrackNameParams where
  track_guid : Seg
deriving DecidableEq

structure TrackNameArgs where
  track : Track
  name : Seg
deriving DecidableEq

structure TrackSelectedParams where
  track_guid : Seg
deriving DecidableEq

/-- reaper_medium `SetSurfaceSelectedArgs`. -/
structure SetSurfaceSelectedArgs where
  track : Track
  is_selected : Bool
deriving DecidableEq

structure TrackVolumeParams where
  track_guid : Seg
deriving DecidableEq

/-- reaper_medium `SetSurfaceVolumeArgs` (volume is a linear
`ReaperVolumeValue`). -/
structure SetSurfaceVolumeArgs where
  track : Track
  volume : ℚ
deriving DecidableEq

structure TrackPanParams where
  track_guid : Seg
deriving DecidableEq

/-- reaper_medium `SetSurfacePanArgs`. -/
structure SetSurfacePanArgs where
  track : Track
  pan : ℚ
deriving DecidableEq

structure TrackMuteParams where
  track_guid : Seg
deriving DecidableEq

/-- reaper_medium `SetSurfaceMuteArgs`. -/
structure SetSurfaceMuteArgs where
  track : Track
  is_mute : Bool
deriving DecidableEq

structure TrackSoloParams where
  track_guid : Seg
deriving DecidableEq

/-- reaper_medium `SetSurfaceSoloArgs`. -/
structure SetSurfaceSoloArgs where
  track : Track
  is_solo : Bool
deriving DecidableEq

structure TrackRecArmParams where
  track_guid : Seg
deriving DecidableEq

/-- reaper_medium `SetSurfaceRecArmArgs`. -/
structure SetSurfaceRecArmArgs where
  track : Track
  is_armed : Bool
deriving DecidableEq

structure TrackSendGuidParams where
  track_guid : Seg
  send_index : Int
deriving DecidableEq

structure TrackSendGuidArgs where
  track : Track
  send_index : Int
  send_guid : Seg
deriving DecidableEq

structure TrackSendVolumeParams where
  track_guid : Seg
  send_index : Int
deriving DecidableEq

/-- reaper_medium `ExtSetSendVolumeArgs` (`send_index` is a u32). -/
structure ExtSetSendVolumeArgs where
  track : Track
  send_index : Nat
  volume : ℚ
deriving DecidableEq

structure TrackSendPanParams where
  track_guid : Seg
  send_index : Int
deriving DecidableEq

/-- reaper_medium `ExtSetSendPanArgs` (`send_index` is a u32). -/
structure ExtSetSendPanArgs where
  track : Track
  send_index : Nat
  pan : ℚ
deriving DecidableEq

structure TrackColorParams where
  track_guid : Seg
deriving DecidableEq

structure TrackColorArgs where
  track : Track
  color : Int
deriving DecidableEq

/-! ## TrackIndexRoute (src/osc_routes.rs lines 13-59, read-only) -/

/-- Pattern track/{guid}/index. -/
def TrackIndexRoute.matcher (segments : List Seg) : Option TrackIndexParams :=
  match segments with
  | [t, track_guid, k] =>
    if t = seg "track" ∧ k = seg "index" then some ⟨track_guid⟩ else none
  | _ => none

/-- `TrackIndexRoute::receive` is `Ok(())` unconditionally. -/
def TrackIndexRoute.receive (_ : TrackIndexParams) (_ : OscMessage) (_ : Backend) :
    RecvResult := ⟨[], .ok⟩

def TrackIndexRoute.build_message (args : TrackIndexArgs) (_ : Backend) : OscMessage :=
  ⟨seg "/track/" ++ get_track_guid args.track ++ seg "/index", [.int args.index]⟩

/-- Reads the TrackNumber attribute (`as i32` on the f64 read collapses
because the attribute is stored as an integer in the model). -/
def TrackIndexRoute.collect_send_params (params : TrackIndexParams) (b : Backend) :
    Except RouteError TrackIndexArgs :=
  match get_track_by_guid b params.track_guid with
  | .error e => .error e
  | .ok track => .ok ⟨track, track.trackNumber⟩

def trackIndexRoute : Route TrackIndexParams TrackIndexArgs :=
  ⟨TrackIndexRoute.matcher, TrackIndexRoute.receive,
    TrackIndexRoute.build_message, TrackIndexRoute.collect_send_params⟩

/-! ## TrackNameRoute (src/osc_routes.rs lines 61-130) -/

def TrackNameRoute.matcher (segments : List Seg) : Option TrackNameParams :=
  match segments with
  | [t, track_guid, k] =>
    if t = seg "track" ∧ k = seg "name" then some ⟨track_guid⟩ else none
  | _ => none

/-- `msg.args[0]` panics when the argument list is empty; a non-string
argument is a `BadValue`. -/
def TrackNameRoute.receive (params : TrackNameParams) (msg : OscMessage)
    (b : Backend) : RecvResult :=
  match get_track_by_guid b params.track_guid with
  | .error e => ⟨[], .err (.route e)⟩
  | .ok track =>
    match msg.args.head? with
    | none => ⟨[], .panicked⟩
    | some a =>
      match a.asString with
      | none => ⟨[], .err (.badValue (seg "Invalid track name, expected a string"))⟩
      | some name => ⟨[.setName (get_track_guid track) name], .ok⟩

def TrackNameRoute.build_message (args : TrackNameArgs) (_ : Backend) : OscMessage :=
  ⟨seg "/track/" ++ get_track_guid args.track ++ seg "/name", [.string args.name]⟩

def TrackNameRoute.collect_send_params (params : TrackNameParams) (b : Backend) :
    Except RouteError TrackNameArgs :=
  match get_track_by_guid b params.track_guid with
  | .error e => .error e
  | .ok track =>
    match track.name with
    | none => .error (.valueNotFound (seg "Failed to retrieve track name"))
    | some name => .ok ⟨track, name⟩

def trackNameRoute : Route TrackNameParams TrackNameArgs :=
  ⟨TrackNameRoute.matcher, TrackNameRoute.receive,
    TrackNameRoute.build_message, TrackNameRoute.collect_send_params⟩

/-! ## TrackSelectedRoute (src/osc_routes.rs lines 132-193) -/

def TrackSelectedRoute.matcher (segments : List Seg) : Option TrackSelectedParams :=
  match segments with
  | [t, track_guid, k] =>
    if t = seg "track" ∧ k = seg "selected" then some ⟨track_guid⟩ else none
  | _ => none

/-- `msg.args[0].clone().int().unwrap()`: index out of bounds on an empty
argument list and `unwrap` on a non-int both panic. -/
def TrackSelectedRoute.receive (params : TrackSelectedParams) (msg : OscMessage)
    (b : Backend) : RecvResult :=
  match get_track_by_guid b params.track_guid with
  | .error e => ⟨[], .err (.route e)⟩
  | .ok track =>
    match msg.args.head? with
    | none => ⟨[], .panicked⟩
    | some a =>
      match a.asInt with
      | none => ⟨[], .panicked⟩
      | some i =>
        ⟨[.setTrackInfoValue (get_track_guid track) .selected (i : ℚ)], .ok⟩

def TrackSelectedRoute.build_message (args : SetSurfaceSelectedArgs) (_ : Backend) :
    OscMessage :=
  ⟨seg "/track/" ++ get_track_guid args.track ++ seg "/selected",
    [.bool args.is_selected]⟩

def TrackSelectedRoute.collect_send_params (params : TrackSelectedParams)
    (b : Backend) : Except RouteError SetSurfaceSelectedArgs :=
  match get_track_by_guid b params.track_guid with
  | .error e => .error e
  | .ok track => .ok ⟨track, get_media_track_info_value track .selected != 0⟩

def trackSelectedRoute : Route TrackSelectedParams SetSurfaceSelectedArgs :=
  ⟨TrackSelectedRoute.matcher, TrackSelectedRoute.receive,
    TrackSelectedRoute.build_message, TrackSelectedRoute.collect_send_params⟩

/-! ## TrackVolumeRoute (src/osc_routes.rs lines 195-267, curve-mapped) -/

def TrackVolumeRoute.matcher (segments : List Seg) : Option TrackVolumeParams :=
  match segments with
  | [t, track_guid, k] =>
    if t = seg "track" ∧ k = seg "volume" then some ⟨track_guid⟩ else none
  | _ => none

/-- Curve-mapped apply: wire value scaled by the TWELVE_DB reference,
through `slider2db`, then dB to linear gain, then
`csurf_on_volume_change_ex`.  `msg.args[0]` panics on an empty list; a
non-float argument is a `BadValue`. -/
def TrackVolumeRoute.receive (params : TrackVolumeParams) (msg : OscMessage)
    (b : Backend) : RecvResult :=
  match get_track_by_guid b params.track_guid with
  | .error e => ⟨[], .err (.route e)⟩
  | .ok track =>
    match msg.args.head? with
    | none => ⟨[], .panicked⟩
    | some a =>
      match a.asFloat with
      | none => ⟨[], .err (.badValue (seg "Invalid volume value, expected a float"))⟩
      | some volume_raw =>
        let slider_value := volume_raw * volumeSliderTwelveDb
        let volume_db := b.engine.slider2db slider_value
        let volume_linear := b.engine.dbToLinear volume_db
        ⟨[.csurfOnVolumeChange (get_track_guid track) volume_linear], .ok⟩

/-- Curve-mapped encode: linear gain to dB, `db2slider`, divided by the
TWELVE_DB reference. -/
def TrackVolumeRoute.build_message (args : SetSurfaceVolumeArgs) (b : Backend) :
    OscMessage :=
  let vol_db := b.engine.linearToDb args.volume
  let vol_lin := b.engine.db2slider vol_db
  let vol_norm := vol_lin / volumeSliderTwelveDb
  ⟨seg "/track/" ++ get_track_guid args.track ++ seg "/volume", [.float vol_norm]⟩

def TrackVolumeRoute.collect_send_params (params : TrackVolumeParams) (b : Backend) :
    Except RouteError SetSurfaceVolumeArgs :=
  match get_track_by_guid b params.track_guid with
  | .error e => .error e
  | .ok track => .ok ⟨track, get_media_track_info_value track .vol⟩

def trackVolumeRoute : Route TrackVolumeParams SetSurfaceVolumeArgs :=
  ⟨TrackVolumeRoute.matcher, TrackVolumeRoute.receive,
    TrackVolumeRoute.build_message, TrackVolumeRoute.collect_send_params⟩

/-! ## TrackPanRoute (src/osc_routes.rs lines 269-330, direct-mapped) -/

def TrackPanRoute.matcher (segments : List Seg) : Option TrackPanParams :=
  match segments with
  | [t, track_guid, k] =>
    if t = seg "track" ∧ k = seg "pan" then some ⟨track_guid⟩ else none
  | _ => none

/-- `msg.args[0].clone().float().unwrap()`: panics on an empty argument
list or non-float argument. -/
def TrackPanRoute.receive (params : TrackPanParams) (msg : OscMessage)
    (b : Backend) : RecvResult :=
  match get_track_by_guid b params.track_guid with
  | .error e => ⟨[], .err (.route e)⟩
  | .ok track =>
    match msg.args.head? with
    | none => ⟨[], .panicked⟩
    | some a =>
      match a.asFloat with
      | none => ⟨[], .panicked⟩
      | some v => ⟨[.setTrackInfoValue (get_track_guid track) .pan v], .ok⟩

def TrackPanRoute.build_message (args : SetSurfacePanArgs) (_ : Backend) :
    OscMessage :=
  ⟨seg "/track/" ++ get_track_guid args.track ++ seg "/pan", [.float args.pan]⟩

def TrackPanRoute.collect_send_params (params : TrackPanParams) (b : Backend) :
    Except RouteError SetSurfacePanArgs :=
  match get_track_by_guid b params.track_guid with
  | .error e => .error e
  | .ok track => .ok ⟨track, get_media_track_info_value track .pan⟩

def trackPanRoute : Route TrackPanParams SetSurfacePanArgs :=
  ⟨TrackPanRoute.matcher, TrackPanRoute.receive,
    TrackPanRoute.build_message, TrackPanRoute.collect_send_params⟩

/-! ## TrackMuteRoute (src/osc_routes.rs lines 332-393) -/

def TrackMuteRoute.matcher (segments : List Seg) : Option TrackMuteParams :=
  match segments with
  | [t, track_guid, k] =>
    if t = seg "track" ∧ k = seg "mute" then some ⟨track_guid⟩ else none
  | _ => none

/-- `msg.args[0].clone().int().unwrap()`: panics on an empty argument
list or non-int argument. -/
def TrackMuteRoute.receive (params : TrackMuteParams) (msg : OscMessage)
    (b : Backend) : RecvResult :=
  match get_track_by_guid b params.track_guid with
  | .error e => ⟨[], .err (.route e)⟩
  | .ok track =>
    match msg.args.head? with
    | none => ⟨[], .panicked⟩
    | some a =>
      match a.asInt with
      | none => ⟨[], .panicked⟩
      | some i => ⟨[.setTrackInfoValue (get_track_guid track) .mute (i : ℚ)], .ok⟩

def TrackMuteRoute.build_message (args : SetSurfaceMuteArgs) (_ : Backend) :
    OscMessage :=
  ⟨seg "/track/" ++ get_track_guid args.track ++ seg "/mute", [.bool args.is_mute]⟩

def TrackMuteRoute.collect_send_params (params : TrackMuteParams) (b : Backend) :
    Except RouteError SetSurfaceMuteArgs :=
  match get_track_by_guid b params.track_guid with
  | .error e => .error e
  | .ok track => .ok ⟨track, get_media_track_info_value track .mute != 0⟩

def trackMuteRoute : Route TrackMuteParams SetSurfaceMuteArgs :=
  ⟨TrackMuteRoute.matcher, TrackMuteRoute.receive,
    TrackMuteRoute.build_message, TrackMuteRoute.collect_send_params⟩

/-! ## TrackSoloRoute (src/osc_routes.rs lines 395-456) -/

def TrackSoloRoute.matcher (segments : List Seg) : Option TrackSoloParams :=
  match segments with
  | [t, track_guid, k] =>
    if t = seg "track" ∧ k = seg "solo" then some ⟨track_guid⟩ else none
  | _ => none

def TrackSoloRoute.receive (params : TrackSoloParams) (msg : OscMessage)
    (b : Backend) : RecvResult :=
  match get_track_by_guid b params.track_guid with
  | .error e => ⟨[], .err (.route e)⟩
  | .ok track =>
    match msg.args.head? with
    | none => ⟨[], .panicked⟩
    | some a =>
      match a.asInt with
      | none => ⟨[], .panicked⟩
      | some i => ⟨[.setTrackInfoValue (get_track_guid track) .solo (i : ℚ)], .ok⟩

def TrackSoloRoute.build_message (args : SetSurfaceSoloArgs) (_ : Backend) :
    OscMessage :=
  ⟨seg "/track/" ++ get_track_guid args.track ++ seg "/solo", [.bool args.is_solo]⟩

def TrackSoloRoute.collect_send_params (params : TrackSoloParams) (b : Backend) :
    Except RouteError SetSurfaceSoloArgs :=
  match get_track_by_guid b params.track_guid with
  | .error e => .error e
  | .ok track => .ok ⟨track, get_media_track_info_value track .solo != 0⟩

def trackSoloRoute : Route TrackSoloParams SetSurfaceSoloArgs :=
  ⟨TrackSoloRoute.matcher, TrackSoloRoute.receive,
    TrackSoloRoute.build_message, TrackSoloRoute.collect_send_params⟩

/-! ## TrackRecArmRoute (src/osc_routes.rs lines 458-519) -/

def TrackRecArmRoute.matcher (segments : List Seg) : Option TrackRecArmParams :=
  match segments with
  | [t, track_guid, k] =>
    if t = seg "track" ∧ k = seg "rec-arm" then some ⟨track_guid⟩ else none
  | _ => none

def TrackRecArmRoute.receive (params : TrackRecArmParams) (msg : OscMessage)
    (b : Backend) : RecvResult :=
  match get_track_by_guid b params.track_guid with
  | .error e => ⟨[], .err (.route e)⟩
  | .ok track =>
    match msg.args.head? with
    | none => ⟨[], .panicked⟩
    | some a =>
      match a.asInt with
      | none => ⟨[], .panicked⟩
      | some i => ⟨[.setTrackInfoValue (get_track_guid track) .recArm (i : ℚ)], .ok⟩

def TrackRecArmRoute.build_message (args : SetSurfaceRecArmArgs) (_ : Backend) :
    OscMessage :=
  ⟨seg "/track/" ++ get_track_guid args.track ++ seg "/rec-arm",
    [.bool args.is_armed]⟩

def TrackRecArmRoute.collect_send_params (params : TrackRecArmParams) (b : Backend) :
    Except RouteError SetSurfaceRecArmArgs :=
  match get_track_by_guid b params.track_guid with
  | .error e => .error e
  | .ok track => .ok ⟨track, get_media_track_info_value track .recArm != 0⟩

def trackRecArmRoute : Route TrackRecArmParams SetSurfaceRecArmArgs :=
  ⟨TrackRecArmRoute.matcher, TrackRecArmRoute.receive,
    TrackRecArmRoute.build_message, TrackRecArmRoute.collect_send_params⟩

/-! ## TrackSendGuidRoute (src/osc_routes.rs lines 521-596, read-only) -/

/-- Pattern track/{guid}/send/{index}/guid; the index segment goes
through `i32::from_str`. -/
def TrackSendGuidRoute.matcher (segments : List Seg) : Option TrackSendGuidParams :=
  match segments with
  | [t, track_guid, s, send_index, k] =>
    if t = seg "track" ∧ s = seg "send" ∧ k = seg "guid" then
      match parseI32 send_index with
      | some idx => some ⟨track_guid, idx⟩
      | none => none
    else none
  | _ => none

/-- Read-only, but the GUID is still resolved first (`?` operator), so a
missing track is a `GuidNotFound` error. -/
def TrackSendGuidRoute.receive (params : TrackSendGuidParams) (_ : OscMessage)
    (b : Backend) : RecvResult :=
  match get_track_by_guid b params.track_guid with
  | .error e => ⟨[], .err (.route e)⟩
  | .ok _ => ⟨[], .ok⟩

def TrackSendGuidRoute.build_message (args : TrackSendGuidArgs) (_ : Backend) :
    OscMessage :=
  ⟨seg "/track/" ++ get_track_guid args.track ++ seg "/send/" ++
      intRepr args.send_index ++ seg "/guid",
    [.string args.send_guid]⟩

def TrackSendGuidRoute.collect_send_params (params : TrackSendGuidParams)
    (b : Backend) : Except RouteError TrackSendGuidArgs :=
  match get_track_by_guid b params.track_guid with
  | .error e => .error e
  | .ok track =>
    match get_track_send_info_desttrack track (u32cast params.send_index) with
    | none => .error (.valueNotFound (seg "Failed to retrieve send track"))
    | some send_guid => .ok ⟨track, params.send_index, send_guid⟩

def trackSendGuidRoute : Route TrackSendGuidParams TrackSendGuidArgs :=
  ⟨TrackSendGuidRoute.matcher, TrackSendGuidRoute.receive,
    TrackSendGuidRoute.build_message, TrackSendGuidRoute.collect_send_params⟩

/-! ## TrackSendVolumeRoute (src/osc_routes.rs lines 598-676) -/

def TrackSendVolumeRoute.matcher (segments : List Seg) :
    Option TrackSendVolumeParams :=
  match segments with
  | [t, track_guid, s, send_index, k] =>
    if t = seg "track" ∧ s = seg "send" ∧ k = seg "volume" then
      match parseI32 send_index with
      | some idx => some ⟨track_guid, idx⟩
      | none => none
    else none
  | _ => none

/-- The wire float is passed to `ReaperVolumeValue::new` and then to
`set_track_send_ui_vol` directly, with no slider/dB curve conversion.
A negative send index is a `BadValue` (checked before the argument);
`msg.args[0].clone().float().unwrap()` panics on an empty list or
non-float argument; a value `ReaperVolumeValue::new` rejects is a
`BadValue`. -/
def TrackSendVolumeRoute.receive (params : TrackSendVolumeParams) (msg : OscMessage)
    (b : Backend) : RecvResult :=
  match get_track_by_guid b params.track_guid with
  | .error e => ⟨[], .err (.route e)⟩
  | .ok track =>
    match u32TryFrom params.send_index with
    | none => ⟨[], .err (.badValue (seg "Invalid send index"))⟩
    | some idx =>
      match msg.args.head? with
      | none => ⟨[], .panicked⟩
      | some a =>
        match a.asFloat with
        | none => ⟨[], .panicked⟩
        | some v =>
          match reaperVolumeValueNew v with
          | none => ⟨[], .err (.badValue (seg "Invalid volume value"))⟩
          | some volume =>
            ⟨[.setTrackSendUiVol (get_track_guid track) idx volume], .ok⟩

/-- Encode emits the stored linear `ReaperVolumeValue` as the wire float
directly (`args.volume.into_inner()`), with no dB/slider conversion. -/
def TrackSendVolumeRoute.build_message (args : ExtSetSendVolumeArgs) (_ : Backend) :
    OscMessage :=
  ⟨seg "/track/" ++ get_track_guid args.track ++ seg "/send/" ++
      natRepr args.send_index ++ seg "/volume",
    [.float args.volume]⟩

def TrackSendVolumeRoute.collect_send_params (params : TrackSendVolumeParams)
    (b : Backend) : Except RouteError ExtSetSendVolumeArgs :=
  match get_track_by_guid b params.track_guid with
  | .error e => .error e
  | .ok track =>
    .ok ⟨track, u32cast params.send_index,
      get_track_send_info_vol track (u32cast params.send_index)⟩

def trackSendVolumeRoute : Route TrackSendVolumeParams ExtSetSendVolumeArgs :=
  ⟨TrackSendVolumeRoute.matcher, TrackSendVolumeRoute.receive,
    TrackSendVolumeRoute.build_message, TrackSendVolumeRoute.collect_send_params⟩

/-! ## TrackSendPanRoute (src/osc_routes.rs lines 678-756) -/

def TrackSendPanRoute.matcher (segments : List Seg) : Option TrackSendPanParams :=
  match segments with
  | [t, track_guid, s, send_index, k] =>
    if t = seg "track" ∧ s = seg "send" ∧ k = seg "pan" then
      match parseI32 send_index with
      | some idx => some ⟨track_guid, idx⟩
      | none => none
    else none
  | _ => none

def TrackSendPanRoute.receive (params : TrackSendPanParams) (msg : OscMessage)
    (b : Backend) : RecvResult :=
  match get_track_by_guid b params.track_guid with
  | .error e => ⟨[], .err (.route e)⟩
  | .ok track =>
    match u32TryFrom params.send_index with
    | none => ⟨[], .err (.badValue (seg "Invalid send index"))⟩
    | some idx =>
      match msg.args.head? with
      | none => ⟨[], .panicked⟩
      | some a =>
        match a.asFloat with
        | none => ⟨[], .panicked⟩
        | some v =>
          match reaperPanValueNew v with
          | none => ⟨[], .err (.badValue (seg "Invalid pan value"))⟩
          | some pan =>
            ⟨[.setTrackSendUiPan (get_track_guid track) idx pan], .ok⟩

def TrackSendPanRoute.build_message (args : ExtSetSendPanArgs) (_ : Backend) :
    OscMessage :=
  ⟨seg "/track/" ++ get_track_guid args.track ++ seg "/send/" ++
      natRepr args.send_index ++ seg "/pan",
    [.float args.pan]⟩

def TrackSendPanRoute.collect_send_params (params : TrackSendPanParams)
    (b : Backend) : Except RouteError ExtSetSendPanArgs :=
  match get_track_by_guid b params.track_guid with
  | .error e => .error e
  | .ok track =>
    .ok ⟨track, u32cast params.send_index,
      get_track_send_info_pan track (u32cast params.send_index)⟩

def trackSendPanRoute : Route TrackSendPanParams ExtSetSendPanArgs :=
  ⟨TrackSendPanRoute.matcher, TrackSendPanRoute.receive,
    TrackSendPanRoute.build_message, TrackSendPanRoute.collect_send_params⟩

/-! ## TrackColorRoute (src/osc_routes.rs lines 758-827) -/

def TrackColorRoute.matcher (segments : List Seg) : Option TrackColorParams :=
  match segments with
  | [t, track_guid, k] =>
    if t = seg "track" ∧ k = seg "color" then some ⟨track_guid⟩ else none
  | _ => none

/-- `msg.args[0]` panics on an empty argument list; a non-int argument
is a `BadValue`. -/
def TrackColorRoute.receive (params : TrackColorParams) (msg : OscMessage)
    (b : Backend) : RecvResult :=
  match get_track_by_guid b params.track_guid with
  | .error e => ⟨[], .err (.route e)⟩
  | .ok track =>
    match msg.args.head? with
    | none => ⟨[], .panicked⟩
    | some a =>
      match a.asInt with
      | none => ⟨[], .err (.badValue (seg "Invalid color value, expected an integer"))⟩
      | some i => ⟨[.setCustomColor (get_track_guid track) i true], .ok⟩

def TrackColorRoute.build_message (args : TrackColorArgs) (_ : Backend) :
    OscMessage :=
  ⟨seg "/track/" ++ get_track_guid args.track ++ seg "/color", [.int args.color]⟩

def TrackColorRoute.collect_send_params (params : TrackColorParams) (b : Backend) :
    Except RouteError TrackColorArgs :=
  match get_track_by_guid b params.track_guid with
  | .error e => .error e
  | .ok track => .ok ⟨track, track.color⟩

def trackColorRoute : Route TrackColorParams TrackColorArgs :=
  ⟨TrackColorRoute.matcher, TrackColorRoute.receive,
    TrackColorRoute.build_message, TrackColorRoute.collect_send_params⟩

/-! ## Dispatcher (src/lib.rs lines 117-147, 260-284) -/

/-- The literal query-marker segment. -/
def questionSeg : Seg := seg "?"

/-- What one `dispatch_route` call produced: outbound messages sent to
the channel, backend mutations, and whether a panic unwound out of it. -/
structure DispatchResult where
  outbound : List OscMessage
  effects : List Effect
  panicked : Bool
deriving DecidableEq

/-- `dispatch_route` (src/lib.rs lines 117-147): strip a trailing query
marker, try the route's matcher, then either the query path
(`collect_send_params`, `build_message`, push to the sender channel;
errors logged and discarded) or the write path (`receive`; returned
errors logged and discarded, but a panic propagates). -/
def dispatch_route {P S : Type} (r : Route P S) (segments : List Seg)
    (msg : OscMessage) (b : Backend) : DispatchResult :=
  let is_query := segments.getLast? = some questionSeg
  let match_segments := if is_query then segments.dropLast else segments
  match r.matcher match_segments with
  | none => ⟨[], [], false⟩
  | some params =>
    if is_query then
      match r.collect_send_params params b with
      | .ok send_params => ⟨[r.build_message send_params b], [], false⟩
      | .error _ => ⟨[], [], false⟩
    else
      let res := r.receive params msg b
      ⟨[], res.effects, decide (res.outcome = Outcome.panicked)⟩

/-- Sequencing of two dispatch attempts within `handle_packet`: a panic
in the first aborts the rest of the handler. -/
def DispatchResult.seq (a c : DispatchResult) : DispatchResult :=
  if a.panicked then a
  else ⟨a.outbound ++ c.outbound, a.effects ++ c.effects, c.panicked⟩

/-- The ten `dispatch_route::<T>` calls of `handle_packet`
(src/lib.rs lines 269-278), in registration order.  `TrackIndexRoute`
and `TrackSendGuidRoute` are not among them. -/
def dispatch_all (segments : List Seg) (msg : OscMessage) (b : Backend) :
    DispatchResult :=
  (((((((((dispatch_route trackNameRoute segments msg b).seq
    (dispatch_route trackSelectedRoute segments msg b)).seq
    (dispatch_route trackVolumeRoute segments msg b)).seq
    (dispatch_route trackPanRoute segments msg b)).seq
    (dispatch_route trackMuteRoute segments msg b)).seq
    (dispatch_route trackSoloRoute segments msg b)).seq
    (dispatch_route trackRecArmRoute segments msg b)).seq
    (dispatch_route trackSendVolumeRoute segments msg b)).seq
    (dispatch_route trackSendPanRoute segments msg b)).seq
    (dispatch_route trackColorRoute segments msg b)

/-- `handle_packet` (src/lib.rs lines 264-284): a single message is
parsed and dispatched against every registered route; a bundle is only
logged — none of its content is dispatched. -/
def handle_packet (b : Backend) (packet : OscPacket) : DispatchResult :=
  match packet with
  | .message msg => dispatch_all (parse_osc_address msg.addr) msg b
  | .bundle _ => ⟨[], [], false⟩

/-! ## Engine event adapter: track-list change (src/lib.rs lines 163-202) -/

/-- `get_track_idx` (src/utils.rs / src/lib.rs): the TrackNumber
attribute; the f64-to-u32-to-i32 casts collapse because the attribute is
stored as an integer in the model. -/
def get_track_idx (t : Track) : Int := t.trackNumber

/-- `ArpadSurface::set_track_list_change`: for every project track in
order, push its index message, then one send-guid message per outgoing
send of that track (`get_track_num_sends` / `get_track_send_info_desttrack`). -/
def set_track_list_change (b : Backend) : List OscMessage :=
  b.tracks.flatMap fun track =>
    TrackIndexRoute.build_message ⟨track, get_track_idx track⟩ b ::
      track.sends.enum.map fun p =>
        TrackSendGuidRoute.build_message ⟨track, (p.1 : Int), p.2.destGuid⟩ b

/-! ## State-change poller (src/polling.rs lines 60-113) -/

/-- The poll cache of `TrackColorPollSource` (`prev_colors`,
a `HashMap<String, NativeColor>`), modelled as an association list with
first-match lookup and shadowing insert. -/
def PollCache : Type := List (Seg × Int)

/-- `HashMap::get`. -/
def pollCacheLookup : PollCache → Seg → Option Int
  | [], _ => none
  | (k, v) :: rest, g => if k = g then some v else pollCacheLookup rest g

/-- `HashMap::insert` (later lookups see the new binding). -/
def pollCacheInsert (c : PollCache) (g : Seg) (v : Int) : PollCache := (g, v) :: c

/-- One tick of `TrackColorPollSource::poll_and_send` over a track list:
absent cache entry → insert and emit; different cached value → insert
and emit; equal cached value → nothing. -/
def pollTracks (b : Backend) : PollCache → List Track → PollCache × List OscMessage
  | cache, [] => (cache, [])
  | cache, track :: rest =>
    let guid := get_track_guid track
    let color := track.color
    match pollCacheLookup cache guid with
    | some prev =>
      if prev ≠ color then
        let cache1 := pollCacheInsert cache guid color
        let msg := TrackColorRoute.build_message ⟨track, color⟩ b
        let out := pollTracks b cache1 rest
        (out.1, msg :: out.2)
      else pollTracks b cache rest
    | none =>
      let cache1 := pollCacheInsert cache guid color
      let msg := TrackColorRoute.build_message ⟨track, color⟩ b
      let out := pollTracks b cache1 rest
      (out.1, msg :: out.2)

/-- `TrackColorPollSource::poll_and_send`: iterate the project tracks
(`count_tracks` / `get_track`). -/
def poll_and_send (b : Backend) (cache : PollCache) : PollCache × List OscMessage :=
  pollTracks b cache b.tracks

/-! ## Concrete fixtures used by witnesses and counterexamples -/

/-- An engine whose curve functions are all the identity: enough to make
the conversion chains visible, since the claims are about which
functions are composed, not their values. -/
def idEngine : Engine := ⟨fun x => x, fun x => x, fun x => x, fun x => x⟩

/-- A project track with GUID g and one send to a track with GUID d. -/
def trackG : Track :=
  ⟨seg "g", some (seg "Guitar"), 1, 1, 0, 0, 0, 0, 0, 7, [⟨seg "d", 2, 0⟩]⟩

/-- A master track with GUID m. -/
def masterT : Track := ⟨seg "m", some (seg "Master"), 0, 1, 0, 0, 0, 0, 0, 0, []⟩

/-- A one-track project. -/
def backend1 : Backend := ⟨idEngine, masterT, [trackG]⟩

/-- A project with no tracks at all (only the master). -/
def emptyProjectBackend : Backend := ⟨idEngine, masterT, []⟩

/-! ## Claims -/

/-- C10: only single-message packets are dispatched — when a decoded
inbound packet is an OSC bundle, `handle_packet` logs it and returns
without dispatching any route for any contained message, so bundles
never cause backend mutations or outbound messages. -/
theorem c10_bundle_not_dispatched (b : Backend) (content : List OscPacket) :
    handle_packet b (.bundle content) = ⟨[], [], false⟩ := rfl

/-- C3 counterexample: `TrackSendGuidRoute::receive` is not an
unconditional no-op success — on a project where the GUID x resolves to
no track it returns a `GuidNotFound` error, refuting "never returns an
error, regardless of ... whether the addressed entity exists". -/
theorem c3_counterexample :
    TrackSendGuidRoute.receive ⟨seg "x", 0⟩ ⟨seg "/track/x/send/0/guid", []⟩
        emptyProjectBackend =
      ⟨[], .err (.route (.guidNotFound (seg "x")))⟩ ∧
    (TrackSendGuidRoute.receive ⟨seg "x", 0⟩ ⟨seg "/track/x/send/0/guid", []⟩
        emptyProjectBackend).outcome ≠ Outcome.ok := by
  exact ⟨rfl, by decide⟩

/-- C3 (amended): `TrackIndexRoute::receive` is an unconditional no-op
success for every input; `TrackSendGuidRoute::receive` never mutates the
backend and succeeds as a no-op for every message when the addressed
track exists, but it resolves the GUID first and returns `GuidNotFound`
when the GUID resolves to no entity. -/
theorem c3_read_only_receive_amended :
    (∀ (p : TrackIndexParams) (msg : OscMessage) (b : Backend),
      TrackIndexRoute.receive p msg b = ⟨[], .ok⟩) ∧
    (∀ (p : TrackSendGuidParams) (msg : OscMessage) (b : Backend),
      (TrackSendGuidRoute.receive p msg b).effects = [] ∧
      (∀ t, get_track_by_guid b p.track_guid = .ok t →
        TrackSendGuidRoute.receive p msg b = ⟨[], .ok⟩) ∧
      (∀ e, get_track_by_guid b p.track_guid = .error e →
        TrackSendGuidRoute.receive p msg b = ⟨[], .err (.route e)⟩)) := by
  refine ⟨fun _ _ _ => rfl, fun p msg b => ?_⟩
  refine ⟨?_, fun t ht => ?_, fun e he => ?_⟩
  · cases h : get_track_by_guid b p.track_guid <;>
      simp [TrackSendGuidRoute.receive, h]
  · simp [TrackSendGuidRoute.receive, ht]
  · simp [TrackSendGuidRoute.receive, he]

/-- C3 witness: the amended statement evaluated on a concrete project —
the index route ignores a write, and the send-guid route succeeds as a
no-op on an existing track g. -/
theorem c3_read_only_receive_witness :
    TrackIndexRoute.receive ⟨seg "g"⟩ ⟨seg "/track/g/index", [.int 5]⟩ backend1 =
      ⟨[], .ok⟩ ∧
    TrackSendGuidRoute.receive ⟨seg "g", 0⟩ ⟨seg "/track/g/send/0/guid", []⟩
        backend1 = ⟨[], .ok⟩ := by
  refine ⟨c3_read_only_receive_amended.1 _ _ _, ?_⟩
  exact ((c3_read_only_receive_amended.2 ⟨seg "g", 0⟩
    ⟨seg "/track/g/send/0/guid", []⟩ backend1).2.1 trackG rfl)

/-- C1: the claim says every route's `receive` validates argument count
and type and fails with `BadValue`, and that a matched message with too
few or mis-typed arguments never panics the dispatcher.  The code
contradicts this (and its own spec of the dispatch boundary):
`TrackMuteRoute::receive` runs `msg.args[0].clone().int().unwrap()`, so
a float argument hits `unwrap` on `None` and an empty argument list hits
an out-of-bounds index — both panics that propagate out of
`dispatch_route` (its `unwrap_or_else` only catches returned errors). -/
theorem c1_mute_receive_panics :
    TrackMuteRoute.receive ⟨seg "g"⟩ ⟨seg "/track/g/mute", [.float (1/2)]⟩
        backend1 = ⟨[], .panicked⟩ ∧
    TrackMuteRoute.receive ⟨seg "g"⟩ ⟨seg "/track/g/mute", []⟩ backend1 =
      ⟨[], .panicked⟩ ∧
    dispatch_route trackMuteRoute [seg "track", seg "g", seg "mute"]
        ⟨seg "/track/g/mute", [.float (1/2)]⟩ backend1 =
      ⟨[], [], true⟩ := by
  exact ⟨rfl, rfl, rfl⟩

/-- An engine whose curve functions return distinct constants, making
visible which of them a route composes. -/
def c2Engine : Engine := ⟨fun _ => 40, fun _ => 900, fun _ => 5, fun _ => 40⟩

/-- The one-track project under `c2Engine`. -/
def backend2 : Backend := ⟨c2Engine, masterT, [trackG]⟩

/-- C2: the claim says the send-volume route curve-maps the wire value
on both directions like the track-volume route.  The code does not: on
apply it hands the raw wire float (here 1) to `set_track_send_ui_vol`
as the linear volume (first conjunct), where the curve chain
`dbToLinear (slider2db (v * TWELVE_DB))` applied by the track-volume
route (second conjunct) yields 5 under this engine — so the performed
mutation differs from the curve-mapped one (third conjunct); on encode
it emits the stored linear gain 2 unchanged (fourth conjunct), where
the track-volume route emits `db2slider (linearToDb v) / TWELVE_DB`,
which is not 2 under this engine (fifth conjunct). -/
theorem c2_send_volume_not_curve_mapped :
    TrackSendVolumeRoute.receive ⟨seg "g", 0⟩
        ⟨seg "/track/g/send/0/volume", [.float 1]⟩ backend2 =
      ⟨[.setTrackSendUiVol (seg "g") 0 1], .ok⟩ ∧
    TrackVolumeRoute.receive ⟨seg "g"⟩ ⟨seg "/track/g/volume", [.float 1]⟩
        backend2 =
      ⟨[.csurfOnVolumeChange (seg "g")
          (backend2.engine.dbToLinear (backend2.engine.slider2db
            (1 * volumeSliderTwelveDb)))], .ok⟩ ∧
    (TrackSendVolumeRoute.receive ⟨seg "g", 0⟩
        ⟨seg "/track/g/send/0/volume", [.float 1]⟩ backend2).effects ≠
      [.setTrackSendUiVol (seg "g") 0
        (backend2.engine.dbToLinear (backend2.engine.slider2db
          (1 * volumeSliderTwelveDb)))] ∧
    TrackSendVolumeRoute.build_message ⟨trackG, 0, 2⟩ backend2 =
      ⟨seg "/track/g/send/0/volume", [.float 2]⟩ ∧
    (TrackVolumeRoute.build_message ⟨trackG, 2⟩ backend2).args ≠ [.float 2] := by
  refine ⟨rfl, rfl, by decide, rfl, ?_⟩
  simp only [TrackVolumeRoute.build_message, backend2, c2Engine, volumeSliderTwelveDb]
  intro h
  injection h with h1 h2
  injection h1 with h3
  exact absurd h3 (by norm_num)

/-! ## Matcher helper lemmas -/

theorem trackName_matcher_ne (g k : Seg) (h : ¬ k = seg "name") :
    TrackNameRoute.matcher [seg "track", g, k] = none := by
  simp only [TrackNameRoute.matcher]
  rw [if_neg]
  exact fun hc => h hc.2

theorem trackSelected_matcher_ne (g k : Seg) (h : ¬ k = seg "selected") :
    TrackSelectedRoute.matcher [seg "track", g, k] = none := by
  simp only [TrackSelectedRoute.matcher]
  rw [if_neg]
  exact fun hc => h hc.2

theorem trackVolume_matcher_ne (g k : Seg) (h : ¬ k = seg "volume") :
    TrackVolumeRoute.matcher [seg "track", g, k] = none := by
  simp only [TrackVolumeRoute.matcher]
  rw [if_neg]
  exact fun hc => h hc.2

theorem trackPan_matcher_ne (g k : Seg) (h : ¬ k = seg "pan") :
    TrackPanRoute.matcher [seg "track", g, k] = none := by
  simp only [TrackPanRoute.matcher]
  rw [if_neg]
  exact fun hc => h hc.2

theorem trackMute_matcher_ne (g k : Seg) (h : ¬ k = seg "mute") :
    TrackMuteRoute.matcher [seg "track", g, k] = none := by
  simp only [TrackMuteRoute.matcher]
  rw [if_neg]
  exact fun hc => h hc.2

theorem trackSolo_matcher_ne (g k : Seg) (h : ¬ k = seg "solo") :
    TrackSoloRoute.matcher [seg "track", g, k] = none := by
  simp only [TrackSoloRoute.matcher]
  rw [if_neg]
  exact fun hc => h hc.2

theorem trackRecArm_matcher_ne (g k : Seg) (h : ¬ k = seg "rec-arm") :
    TrackRecArmRoute.matcher [seg "track", g, k] = none := by
  simp only [TrackRecArmRoute.matcher]
  rw [if_neg]
  exact fun hc => h hc.2

theorem trackColor_matcher_ne (g k : Seg) (h : ¬ k = seg "color") :
    TrackColorRoute.matcher [seg "track", g, k] = none := by
  simp only [TrackColorRoute.matcher]
  rw [if_neg]
  exact fun hc => h hc.2

theorem trackSendVolume_matcher_ne (g n k : Seg) (h : ¬ k = seg "volume") :
    TrackSendVolumeRoute.matcher [seg "track", g, seg "send", n, k] = none := by
  simp only [TrackSendVolumeRoute.matcher]
  rw [if_neg]
  exact fun hc => h hc.2.2

theorem trackSendPan_matcher_ne (g n k : Seg) (h : ¬ k = seg "pan") :
    TrackSendPanRoute.matcher [seg "track", g, seg "send", n, k] = none := by
  simp only [TrackSendPanRoute.matcher]
  rw [if_neg]
  exact fun hc => h hc.2.2

/-! ## Dispatcher helper lemmas -/

theorem dispatch_route_no_match {P S : Type} (r : Route P S) (segments : List Seg)
    (msg : OscMessage) (b : Backend) (ms : List Seg)
    (hms : (if segments.getLast? = some questionSeg then segments.dropLast
      else segments) = ms)
    (h : r.matcher ms = none) :
    dispatch_route r segments msg b = ⟨[], [], false⟩ := by
  simp only [dispatch_route, hms, h]

theorem dispatch_all_of_matchers_none (segs : List Seg) (msg : OscMessage)
    (b : Backend) (ms : List Seg)
    (hms : (if segs.getLast? = some questionSeg then segs.dropLast else segs) = ms)
    (h1 : TrackNameRoute.matcher ms = none)
    (h2 : TrackSelectedRoute.matcher ms = none)
    (h3 : TrackVolumeRoute.matcher ms = none)
    (h4 : TrackPanRoute.matcher ms = none)
    (h5 : TrackMuteRoute.matcher ms = none)
    (h6 : TrackSoloRoute.matcher ms = none)
    (h7 : TrackRecArmRoute.matcher ms = none)
    (h8 : TrackSendVolumeRoute.matcher ms = none)
    (h9 : TrackSendPanRoute.matcher ms = none)
    (h10 : TrackColorRoute.matcher ms = none) :
    dispatch_all segs msg b = ⟨[], [], false⟩ := by
  rw [dispatch_all,
    dispatch_route_no_match trackNameRoute segs msg b ms hms h1,
    dispatch_route_no_match trackSelectedRoute segs msg b ms hms h2,
    dispatch_route_no_match trackVolumeRoute segs msg b ms hms h3,
    dispatch_route_no_match trackPanRoute segs msg b ms hms h4,
    dispatch_route_no_match trackMuteRoute segs msg b ms hms h5,
    dispatch_route_no_match trackSoloRoute segs msg b ms hms h6,
    dispatch_route_no_match trackRecArmRoute segs msg b ms hms h7,
    dispatch_route_no_match trackSendVolumeRoute segs msg b ms hms h8,
    dispatch_route_no_match trackSendPanRoute segs msg b ms hms h9,
    dispatch_route_no_match trackColorRoute segs msg b ms hms h10]
  rfl

/-! ## Concrete-address parse lemmas (shapes the routes format) -/

theorem parse_track_addr3 (g tail : Seg) (hg : g ≠ []) (hgs : '/' ∉ g)
    (ht : tail ≠ []) (hts : '/' ∉ tail) :
    parse_osc_address (seg "/track/" ++ g ++ ('/' :: tail)) =
      [seg "track", g, tail] := by
  have e : seg "/track/" ++ g ++ ('/' :: tail) =
      '/' :: (seg "track" ++ '/' :: (g ++ '/' :: tail)) := by
    simp only [List.append_assoc]
    rfl
  rw [e, parse_cons_slash, parse_seg_slash _ _ (by decide) (by decide),
    parse_seg_slash _ _ hg hgs, parse_no_slash _ ht hts]

theorem parse_track_addr5 (g n tail : Seg) (hg : g ≠ []) (hgs : '/' ∉ g)
    (hn : n ≠ []) (hns : '/' ∉ n) (ht : tail ≠ []) (hts : '/' ∉ tail) :
    parse_osc_address (seg "/track/" ++ g ++ seg "/send/" ++ n ++ ('/' :: tail)) =
      [seg "track", g, seg "send", n, tail] := by
  have e : seg "/track/" ++ g ++ seg "/send/" ++ n ++ ('/' :: tail) =
      '/' :: (seg "track" ++ '/' ::
        (g ++ '/' :: (seg "send" ++ '/' :: (n ++ '/' :: tail)))) := by
    simp only [List.append_assoc]
    rfl
  rw [e, parse_cons_slash, parse_seg_slash _ _ (by decide) (by decide),
    parse_seg_slash _ _ hg hgs, parse_seg_slash _ _ (by decide) (by decide),
    parse_seg_slash _ _ hn hns, parse_no_slash _ ht hts]

/-- C4: `handle_packet` never dispatches `TrackIndexRoute` or
`TrackSendGuidRoute` — for segments addressed to track/{guid}/index or
track/{guid}/send/{n}/guid, with or without a trailing query marker,
none of the ten dispatched routes matches, so the message produces no
outbound message, no backend mutation and no panic; the last two
conjuncts state the same for a whole inbound message carrying such an
address. -/
theorem c4_readonly_routes_not_dispatched (b : Backend) (msg : OscMessage)
    (g n : Seg) (args : List OscType) :
    dispatch_all [seg "track", g, seg "index"] msg b = ⟨[], [], false⟩ ∧
    dispatch_all [seg "track", g, seg "index", questionSeg] msg b =
      ⟨[], [], false⟩ ∧
    dispatch_all [seg "track", g, seg "send", n, seg "guid"] msg b =
      ⟨[], [], false⟩ ∧
    dispatch_all [seg "track", g, seg "send", n, seg "guid", questionSeg] msg b =
      ⟨[], [], false⟩ ∧
    (g ≠ [] → '/' ∉ g →
      handle_packet b (.message ⟨seg "/track/" ++ g ++ seg "/index", args⟩) =
        ⟨[], [], false⟩) ∧
    (g ≠ [] → '/' ∉ g → n ≠ [] → '/' ∉ n →
      handle_packet b
          (.message ⟨seg "/track/" ++ g ++ seg "/send/" ++ n ++ seg "/guid", args⟩) =
        ⟨[], [], false⟩) := by
  have hA : ∀ (msg2 : OscMessage), dispatch_all [seg "track", g, seg "index"] msg2 b =
      ⟨[], [], false⟩ := by
    intro msg2
    have hne : ¬ ([seg "track", g, seg "index"].getLast? = some questionSeg) := by
      intro hEq
      have h2 : some (seg "index") = some questionSeg := hEq
      exact absurd (Option.some.inj h2) (by decide)
    refine dispatch_all_of_matchers_none _ _ _ [seg "track", g, seg "index"]
      (by rw [if_neg hne]) ?_ ?_ ?_ ?_ ?_ ?_ ?_ ?_ ?_ ?_
    · exact trackName_matcher_ne g _ (by decide)
    · exact trackSelected_matcher_ne g _ (by decide)
    · exact trackVolume_matcher_ne g _ (by decide)
    · exact trackPan_matcher_ne g _ (by decide)
    · exact trackMute_matcher_ne g _ (by decide)
    · exact trackSolo_matcher_ne g _ (by decide)
    · exact trackRecArm_matcher_ne g _ (by decide)
    · exact rfl
    · exact rfl
    · exact trackColor_matcher_ne g _ (by decide)
  have hAq : dispatch_all [seg "track", g, seg "index", questionSeg] msg b =
      ⟨[], [], false⟩ := by
    have hpos : [seg "track", g, seg "index", questionSeg].getLast? =
        some questionSeg := rfl
    refine dispatch_all_of_matchers_none _ _ _ [seg "track", g, seg "index"]
      (by rw [if_pos hpos]; rfl) ?_ ?_ ?_ ?_ ?_ ?_ ?_ ?_ ?_ ?_
    · exact trackName_matcher_ne g _ (by decide)
    · exact trackSelected_matcher_ne g _ (by decide)
    · exact trackVolume_matcher_ne g _ (by decide)
    · exact trackPan_matcher_ne g _ (by decide)
    · exact trackMute_matcher_ne g _ (by decide)
    · exact trackSolo_matcher_ne g _ (by decide)
    · exact trackRecArm_matcher_ne g _ (by decide)
    · exact rfl
    · exact rfl
    · exact trackColor_matcher_ne g _ (by decide)
  have hB : ∀ (msg2 : OscMessage),
      dispatch_all [seg "track", g, seg "send", n, seg "guid"] msg2 b =
      ⟨[], [], false⟩ := by
    intro msg2
    have hne : ¬ ([seg "track", g, seg "send", n, seg "guid"].getLast? =
        some questionSeg) := by
      intro hEq
      have h2 : some (seg "guid") = some questionSeg := hEq
      exact absurd (Option.some.inj h2) (by decide)
    refine dispatch_all_of_matchers_none _ _ _
      [seg "track", g, seg "send", n, seg "guid"]
      (by rw [if_neg hne]) ?_ ?_ ?_ ?_ ?_ ?_ ?_ ?_ ?_ ?_
    · exact rfl
    · exact rfl
    · exact rfl
    · exact rfl
    · exact rfl
    · exact rfl
    · exact rfl
    · exact trackSendVolume_matcher_ne g n _ (by decide)
    · exact trackSendPan_matcher_ne g n _ (by decide)
    · exact rfl
  have hBq : dispatch_all [seg "track", g, seg "send", n, seg "guid", questionSeg]
      msg b = ⟨[], [], false⟩ := by
    have hpos : [seg "track", g, seg "send", n, seg "guid", questionSeg].getLast? =
        some questionSeg := rfl
    refine dispatch_all_of_matchers_none _ _ _
      [seg "track", g, seg "send", n, seg "guid"]
      (by rw [if_pos hpos]; rfl) ?_ ?_ ?_ ?_ ?_ ?_ ?_ ?_ ?_ ?_
    · exact rfl
    · exact rfl
    · exact rfl
    · exact rfl
    · exact rfl
    · exact rfl
    · exact rfl
    · exact trackSendVolume_matcher_ne g n _ (by decide)
    · exact trackSendPan_matcher_ne g n _ (by decide)
    · exact rfl
  refine ⟨hA msg, hAq, hB msg, hBq, fun hg hgs => ?_, fun hg hgs hn hns => ?_⟩
  · show dispatch_all
      (parse_osc_address (seg "/track/" ++ g ++ seg "/index")) _ b = _
    rw [show (seg "/track/" ++ g ++ seg "/index" : List Char) =
        seg "/track/" ++ g ++ ('/' :: seg "index") from rfl,
      parse_track_addr3 g _ hg hgs (by decide) (by decide)]
    exact hA _
  · show dispatch_all
      (parse_osc_address (seg "/track/" ++ g ++ seg "/send/" ++ n ++ seg "/guid"))
        _ b = _
    rw [show (seg "/track/" ++ g ++ seg "/send/" ++ n ++ seg "/guid" : List Char) =
        seg "/track/" ++ g ++ seg "/send/" ++ n ++ ('/' :: seg "guid") from rfl,
      parse_track_addr5 g n _ hg hgs hn hns (by decide) (by decide)]
    exact hB _

/-- C4 witness: a concrete message addressed to each read-only address
family produces the empty dispatch result. -/
theorem c4_readonly_routes_witness :
    handle_packet backend1 (.message ⟨seg "/track/g/index", [.int 5]⟩) =
      ⟨[], [], false⟩ ∧
    handle_packet backend1 (.message ⟨seg "/track/g/send/0/guid", []⟩) =
      ⟨[], [], false⟩ := by
  have h := c4_readonly_routes_not_dispatched backend1 ⟨[], []⟩ (seg "g") (seg "0")
  exact ⟨(h [.int 5]).2.2.2.2.1 (by decide) (by decide),
    (h []).2.2.2.2.2 (by decide) (by decide) (by decide) (by decide)⟩

/-- C6: for every route and every inbound message whose final parsed
segment is the query marker: the marker is stripped before matching
(every conjunct matches on `segs.dropLast`); on a match, `collect` then
`encode` then exactly one push of the encoded message to the outbound
queue; on a `collect` failure, nothing at all is pushed (and no backend
mutation happens in either case). -/
theorem c6_query_dispatch {P S : Type} (r : Route P S) (segs : List Seg)
    (msg : OscMessage) (b : Backend)
    (h : segs.getLast? = some questionSeg) :
    (r.matcher segs.dropLast = none →
      dispatch_route r segs msg b = ⟨[], [], false⟩) ∧
    (∀ p, r.matcher segs.dropLast = some p →
      (∀ sp, r.collect_send_params p b = .ok sp →
        dispatch_route r segs msg b = ⟨[r.build_message sp b], [], false⟩) ∧
      (∀ e, r.collect_send_params p b = .error e →
        dispatch_route r segs msg b = ⟨[], [], false⟩)) := by
  refine ⟨fun hm => ?_, fun p hm => ⟨fun sp hc => ?_, fun e hc => ?_⟩⟩
  · simp [dispatch_route, h, hm]
  · simp [dispatch_route, h, hm, hc]
  · simp [dispatch_route, h, hm, hc]

/-- C6 witness: a query for the mute state of track g dispatched through
the mute route collects the current state and pushes exactly the encoded
response. -/
theorem c6_query_dispatch_witness :
    dispatch_route trackMuteRoute [seg "track", seg "g", seg "mute", questionSeg]
        ⟨seg "/track/g/mute/?", []⟩ backend1 =
      ⟨[⟨seg "/track/g/mute", [.bool false]⟩], [], false⟩ := by
  have h := (c6_query_dispatch trackMuteRoute
      [seg "track", seg "g", seg "mute", questionSeg] ⟨seg "/track/g/mute/?", []⟩
      backend1 rfl).2 ⟨seg "g"⟩ rfl
  have h2 := h.1 ⟨trackG, false⟩ rfl
  rw [h2]
  rfl

/-- C9: the address parser is exactly "split on the slash, discard the
empty segments, in order": it equals the filtered slash-decomposition
(first conjunct), the decomposition re-joined with slashes is the
original address and its segments carry no slash (second and third
conjuncts, so it is the canonical slash-split), and leading, trailing
and doubled slashes produce only empty segments that are discarded
(remaining conjuncts). -/
theorem c9_parse_address (s a c : List Char) :
    parse_osc_address s = (splitSlash s).filter (fun t => !t.isEmpty) ∧
    joinSlash (splitSlash s) = s ∧
    (∀ t ∈ splitSlash s, '/' ∉ t) ∧
    parse_osc_address ('/' :: s) = parse_osc_address s ∧
    parse_osc_address (s ++ ['/']) = parse_osc_address s ∧
    parse_osc_address (a ++ '/' :: '/' :: c) = parse_osc_address (a ++ '/' :: c) :=
  ⟨rfl, splitSlash_join s, splitSlash_no_slash s, parse_cons_slash s,
    parse_trailing_slash s, parse_double_slash a c⟩

/-- C9 witness: the parser facts evaluated on concrete addresses. -/
theorem c9_parse_address_witness :
    parse_osc_address ('/' :: seg "a/b") = parse_osc_address (seg "a/b") ∧
    '/' ∉ (seg "a") := by
  have h := c9_parse_address (seg "a/b") (seg "x") (seg "y")
  exact ⟨h.2.2.2.1, h.2.2.1 (seg "a") (by decide)⟩

/-! ## Poll-cache lemmas -/

theorem pollCacheLookup_insert_self (c : PollCache) (g : Seg) (v : Int) :
    pollCacheLookup (pollCacheInsert c g v) g = some v := by
  simp [pollCacheInsert, pollCacheLookup]

theorem pollCacheLookup_insert_ne (c : PollCache) (g g2 : Seg) (v : Int)
    (h : g2 ≠ g) : pollCacheLookup (pollCacheInsert c g2 v) g = pollCacheLookup c g := by
  simp [pollCacheInsert, pollCacheLookup, h]

theorem pollTracks_lookup_preserved (b : Backend) (ts : List Track) (c : PollCache)
    (g : Seg) (h : g ∉ ts.map get_track_guid) :
    pollCacheLookup (pollTracks b c ts).1 g = pollCacheLookup c g := by
  induction ts generalizing c with
  | nil => rfl
  | cons t rest ih =>
    have hg : get_track_guid t ≠ g := fun hEq => h (by simp [hEq])
    have hrest : g ∉ rest.map get_track_guid := fun hm => h (by simp [hm])
    have hcc : ¬ (t.color ≠ t.color) := fun hcon => hcon rfl
    cases hl : pollCacheLookup c (get_track_guid t) with
    | none =>
      simp only [pollTracks, hl]
      rw [ih _ hrest, pollCacheLookup_insert_ne _ _ _ _ hg]
    | some prev =>
      by_cases hp : prev = t.color
      · simp only [pollTracks, hl, hp]
        rw [if_neg hcc]
        exact ih _ hrest
      · simp only [pollTracks, hl]
        rw [if_pos hp]
        simp only []
        rw [ih _ hrest, pollCacheLookup_insert_ne _ _ _ _ hg]

theorem pollTracks_lookup_after (b : Backend) (ts : List Track) (c : PollCache)
    (hnd : (ts.map get_track_guid).Nodup) :
    ∀ t ∈ ts, pollCacheLookup (pollTracks b c ts).1 (get_track_guid t) =
      some t.color := by
  induction ts generalizing c with
  | nil => simp
  | cons t rest ih =>
    have hpair := List.nodup_cons.mp
      (hnd : (get_track_guid t :: rest.map get_track_guid).Nodup)
    have hhead : get_track_guid t ∉ rest.map get_track_guid := hpair.1
    have hrest : (rest.map get_track_guid).Nodup := hpair.2
    have hcc : ¬ (t.color ≠ t.color) := fun hcon => hcon rfl
    intro t2 ht2
    rcases List.mem_cons.mp ht2 with rfl | hmem
    · cases hl : pollCacheLookup c (get_track_guid t2) with
      | none =>
        simp only [pollTracks, hl]
        rw [pollTracks_lookup_preserved b rest _ _ hhead,
          pollCacheLookup_insert_self]
      | some prev =>
        by_cases hp : prev = t2.color
        · simp only [pollTracks, hl, hp]
          rw [if_neg hcc]
          rw [pollTracks_lookup_preserved b rest _ _ hhead, hl, hp]
        · simp only [pollTracks, hl]
          rw [if_pos hp]
          simp only []
          rw [pollTracks_lookup_preserved b rest _ _ hhead,
            pollCacheLookup_insert_self]
    · cases hl : pollCacheLookup c (get_track_guid t) with
      | none =>
        simp only [pollTracks, hl]
        exact ih _ hrest t2 hmem
      | some prev =>
        by_cases hp : prev = t.color
        · simp only [pollTracks, hl, hp]
          rw [if_neg hcc]
          exact ih _ hrest t2 hmem
        · simp only [pollTracks, hl]
          rw [if_pos hp]
          simp only []
          exact ih _ hrest t2 hmem

theorem pollTracks_no_emit (b : Backend) (ts : List Track) (c : PollCache)
    (h : ∀ t ∈ ts, pollCacheLookup c (get_track_guid t) = some t.color) :
    pollTracks b c ts = (c, []) := by
  induction ts with
  | nil => rfl
  | cons t rest ih =>
    have hl := h t (List.mem_cons_self t rest)
    have hcc : ¬ (t.color ≠ t.color) := fun hcon => hcon rfl
    simp only [pollTracks, hl]
    rw [if_neg hcc]
    exact ih fun t2 h2 => h t2 (List.mem_cons_of_mem _ h2)

theorem pollTracks_all_absent (b : Backend) (ts : List Track) (c : PollCache)
    (hnd : (ts.map get_track_guid).Nodup)
    (hc : ∀ t ∈ ts, pollCacheLookup c (get_track_guid t) = none) :
    (pollTracks b c ts).2 =
      ts.map (fun t => TrackColorRoute.build_message ⟨t, t.color⟩ b) := by
  induction ts generalizing c with
  | nil => rfl
  | cons t rest ih =>
    have hpair := List.nodup_cons.mp
      (hnd : (get_track_guid t :: rest.map get_track_guid).Nodup)
    have hhead : get_track_guid t ∉ rest.map get_track_guid := hpair.1
    have hrest : (rest.map get_track_guid).Nodup := hpair.2
    have hl := hc t (List.mem_cons_self t rest)
    simp only [pollTracks, hl, List.map_cons]
    rw [ih _ hrest]
    intro t2 h2
    have hne : get_track_guid t ≠ get_track_guid t2 := by
      intro hEq
      exact hhead (hEq ▸ List.mem_map_of_mem get_track_guid h2)
    rw [pollCacheLookup_insert_ne _ _ _ _ hne]
    exact hc t2 (List.mem_cons_of_mem _ h2)

/-- C7: one poll tick of the color poll source, per (track, color) pair:
an absent cache entry inserts and emits (always emits on first
observation); a different cached value inserts and emits; an equal
cached value emits nothing and leaves the cache alone; on a full
project, the first tick over an empty cache emits exactly one update per
track, and a second tick with no intervening change emits nothing — so
the poller never emits two consecutive identical values for a pair. -/
theorem c7_poller (b : Backend) (cache : PollCache) (t : Track) :
    (pollCacheLookup cache (get_track_guid t) = some t.color →
      pollTracks b cache [t] = (cache, [])) ∧
    (pollCacheLookup cache (get_track_guid t) = none →
      pollTracks b cache [t] =
        (pollCacheInsert cache (get_track_guid t) t.color,
          [TrackColorRoute.build_message ⟨t, t.color⟩ b])) ∧
    (∀ v, pollCacheLookup cache (get_track_guid t) = some v → v ≠ t.color →
      pollTracks b cache [t] =
        (pollCacheInsert cache (get_track_guid t) t.color,
          [TrackColorRoute.build_message ⟨t, t.color⟩ b])) ∧
    ((b.tracks.map get_track_guid).Nodup →
      (poll_and_send b []).2 =
        b.tracks.map (fun tr => TrackColorRoute.build_message ⟨tr, tr.color⟩ b)) ∧
    ((b.tracks.map get_track_guid).Nodup →
      (poll_and_send b (poll_and_send b cache).1).2 = []) := by
  have hcc : ¬ (t.color ≠ t.color) := fun hcon => hcon rfl
  refine ⟨fun hl => ?_, fun hl => ?_, fun v hl hv => ?_, fun hnd => ?_, fun hnd => ?_⟩
  · simp only [pollTracks, hl]
    rw [if_neg hcc]
  · simp only [pollTracks, hl]
  · simp only [pollTracks, hl]
    rw [if_pos hv]
  · exact pollTracks_all_absent b b.tracks [] hnd (fun _ _ => rfl)
  · exact congrArg Prod.snd
      (pollTracks_no_emit b b.tracks _ (pollTracks_lookup_after b b.tracks cache hnd))

/-- A second project track with GUID h and no sends. -/
def trackH : Track := ⟨seg "h", none, 2, 1, 0, 0, 0, 0, 0, 9, []⟩

/-- A two-track project. -/
def backend3 : Backend := ⟨idEngine, masterT, [trackG, trackH]⟩

/-- C7 witness: on a concrete two-track project the first tick emits one
color update per track and the immediately following tick emits
nothing. -/
theorem c7_poller_witness :
    (poll_and_send backend3 []).2 =
      [TrackColorRoute.build_message ⟨trackG, 7⟩ backend3,
       TrackColorRoute.build_message ⟨trackH, 9⟩ backend3] ∧
    (poll_and_send backend3 (poll_and_send backend3 []).1).2 = [] := by
  have h := c7_poller backend3 [] trackG
  refine ⟨?_, h.2.2.2.2 (by decide)⟩
  have h4 := h.2.2.2.1 (by decide)
  rw [h4]
  rfl

/-! ## Classifying the adapter's outbound messages -/

/-- An index message carries exactly one integer argument; within the
output of `set_track_list_change` this characterizes the
`TrackIndexRoute` messages. -/
def isIndexMessage (m : OscMessage) : Bool :=
  match m.args with
  | [OscType.int _] => true
  | _ => false

/-- A send-guid (destination-identifier) message carries exactly one
string argument; within the output of `set_track_list_change` this
characterizes the `TrackSendGuidRoute` messages. -/
def isSendGuidMessage (m : OscMessage) : Bool :=
  match m.args with
  | [OscType.string _] => true
  | _ => false

theorem track_list_msgs_count (b : Backend) (ts : List Track) :
    (((ts.flatMap fun track =>
        TrackIndexRoute.build_message ⟨track, get_track_idx track⟩ b ::
          track.sends.enum.map fun p =>
            TrackSendGuidRoute.build_message ⟨track, (p.1 : Int), p.2.destGuid⟩ b)
      ).filter isIndexMessage).length = ts.length ∧
    (((ts.flatMap fun track =>
        TrackIndexRoute.build_message ⟨track, get_track_idx track⟩ b ::
          track.sends.enum.map fun p =>
            TrackSendGuidRoute.build_message ⟨track, (p.1 : Int), p.2.destGuid⟩ b)
      ).filter isSendGuidMessage).length =
      (ts.map fun t => t.sends.length).sum := by
  induction ts with
  | nil => simp
  | cons t rest ih =>
    have hidx : isIndexMessage
        (TrackIndexRoute.build_message ⟨t, get_track_idx t⟩ b) = true := rfl
    have hidx2 : ¬ isSendGuidMessage
        (TrackIndexRoute.build_message ⟨t, get_track_idx t⟩ b) = true := by
      intro hcon
      exact absurd hcon (by simp [isSendGuidMessage, TrackIndexRoute.build_message])
    have hsendNotIdx : (t.sends.enum.map fun p =>
        TrackSendGuidRoute.build_message ⟨t, (p.1 : Int), p.2.destGuid⟩ b).filter
          isIndexMessage = [] := by
      rw [List.filter_eq_nil_iff]
      intro m hm
      rcases List.mem_map.mp hm with ⟨p, hp, rfl⟩
      simp [isIndexMessage, TrackSendGuidRoute.build_message]
    have hsendAll : (t.sends.enum.map fun p =>
        TrackSendGuidRoute.build_message ⟨t, (p.1 : Int), p.2.destGuid⟩ b).filter
          isSendGuidMessage =
        t.sends.enum.map fun p =>
          TrackSendGuidRoute.build_message ⟨t, (p.1 : Int), p.2.destGuid⟩ b := by
      rw [List.filter_eq_self]
      intro m hm
      rcases List.mem_map.mp hm with ⟨p, hp, rfl⟩
      rfl
    constructor
    · rw [List.flatMap_cons, List.filter_append, List.filter_cons_of_pos hidx,
        hsendNotIdx, List.length_cons, List.length_append]
      simp [ih.1, Nat.add_comm]
    · rw [List.flatMap_cons, List.filter_append, List.filter_cons_of_neg hidx2,
        hsendAll, List.length_append, List.length_map, List.enum_length,
        List.map_cons, List.sum_cons, ih.2]

/-- C8: on a track-list-change notification the adapter re-enumerates
the project tracks and enqueues exactly one index message per track
plus exactly one destination-identifier message per outgoing send of
every track: the number of integer-payload (index) messages equals the
track count and the number of string-payload (send-guid) messages
equals the total number of sends — in particular 3 index messages on a
3-track project. -/
theorem c8_track_list_change (b : Backend) :
    ((set_track_list_change b).filter isIndexMessage).length =
      b.tracks.length ∧
    ((set_track_list_change b).filter isSendGuidMessage).length =
      (b.tracks.map fun t => t.sends.length).sum :=
  track_list_msgs_count b b.tracks

/-- C5 counterexample: the claim fails on the numeric send-index
segment.  The matcher accepts the address segment 007 (Rust
`i32::from_str` allows leading zeros), extracting index 7; collect
succeeds; but the address rebuilt by `build_message` renders the index
canonically as 7, so re-substitution does not reproduce the original
segments. -/
theorem c5_counterexample :
    TrackSendVolumeRoute.matcher
        [seg "track", seg "g", seg "send", seg "007", seg "volume"] =
      some ⟨seg "g", 7⟩ ∧
    TrackSendVolumeRoute.collect_send_params ⟨seg "g", 7⟩ backend1 =
      .ok ⟨trackG, 7, 0⟩ ∧
    parse_osc_address
        (TrackSendVolumeRoute.build_message ⟨trackG, 7, 0⟩ backend1).addr ≠
      [seg "track", seg "g", seg "send", seg "007", seg "volume"] := by
  refine ⟨rfl, rfl, by decide⟩

/-- C5 (amended): for every registered route, the parameters extracted
by `match` from a syntactically valid concrete address, re-substituted
into the route's address pattern by `build_message` (via
`collect_send_params`), reproduce the original address segments exactly
— for the guid placeholder unconditionally, and for the numeric
send-index segment exactly when that segment is the canonical decimal
rendering of the index the route later formats (the u32 cast of the
parsed i32 for send-volume/send-pan, the parsed i32 for the
send-identifier route); accepted non-canonical spellings such as 007
re-substitute to their canonical form instead. -/
theorem c5_roundtrip_amended :
    (∀ (b : Backend) (g : Seg) (p : TrackIndexParams) (sp : TrackIndexArgs),
      g ≠ [] → '/' ∉ g →
      TrackIndexRoute.matcher [seg "track", g, seg "index"] = some p →
      TrackIndexRoute.collect_send_params p b = .ok sp →
      parse_osc_address (TrackIndexRoute.build_message sp b).addr =
        [seg "track", g, seg "index"]) ∧
    (∀ (b : Backend) (g : Seg) (p : TrackNameParams) (sp : TrackNameArgs),
      g ≠ [] → '/' ∉ g →
      TrackNameRoute.matcher [seg "track", g, seg "name"] = some p →
      TrackNameRoute.collect_send_params p b = .ok sp →
      parse_osc_address (TrackNameRoute.build_message sp b).addr =
        [seg "track", g, seg "name"]) ∧
    (∀ (b : Backend) (g : Seg) (p : TrackSelectedParams)
        (sp : SetSurfaceSelectedArgs),
      g ≠ [] → '/' ∉ g →
      TrackSelectedRoute.matcher [seg "track", g, seg "selected"] = some p →
      TrackSelectedRoute.collect_send_params p b = .ok sp →
      parse_osc_address (TrackSelectedRoute.build_message sp b).addr =
        [seg "track", g, seg "selected"]) ∧
    (∀ (b : Backend) (g : Seg) (p : TrackVolumeParams) (sp : SetSurfaceVolumeArgs),
      g ≠ [] → '/' ∉ g →
      TrackVolumeRoute.matcher [seg "track", g, seg "volume"] = some p →
      TrackVolumeRoute.collect_send_params p b = .ok sp →
      parse_osc_address (TrackVolumeRoute.build_message sp b).addr =
        [seg "track", g, seg "volume"]) ∧
    (∀ (b : Backend) (g : Seg) (p : TrackPanParams) (sp : SetSurfacePanArgs),
      g ≠ [] → '/' ∉ g →
      TrackPanRoute.matcher [seg "track", g, seg "pan"] = some p →
      TrackPanRoute.collect_send_params p b = .ok sp →
      parse_osc_address (TrackPanRoute.build_message sp b).addr =
        [seg "track", g, seg "pan"]) ∧
    (∀ (b : Backend) (g : Seg) (p : TrackMuteParams) (sp : SetSurfaceMuteArgs),
      g ≠ [] → '/' ∉ g →
      TrackMuteRoute.matcher [seg "track", g, seg "mute"] = some p →
      TrackMuteRoute.collect_send_params p b = .ok sp →
      parse_osc_address (TrackMuteRoute.build_message sp b).addr =
        [seg "track", g, seg "mute"]) ∧
    (∀ (b : Backend) (g : Seg) (p : TrackSoloParams) (sp : SetSurfaceSoloArgs),
      g ≠ [] → '/' ∉ g →
      TrackSoloRoute.matcher [seg "track", g, seg "solo"] = some p →
      TrackSoloRoute.collect_send_params p b = .ok sp →
      parse_osc_address (TrackSoloRoute.build_message sp b).addr =
        [seg "track", g, seg "solo"]) ∧
    (∀ (b : Backend) (g : Seg) (p : TrackRecArmParams) (sp : SetSurfaceRecArmArgs),
      g ≠ [] → '/' ∉ g →
      TrackRecArmRoute.matcher [seg "track", g, seg "rec-arm"] = some p →
      TrackRecArmRoute.collect_send_params p b = .ok sp →
      parse_osc_address (TrackRecArmRoute.build_message sp b).addr =
        [seg "track", g, seg "rec-arm"]) ∧
    (∀ (b : Backend) (g : Seg) (p : TrackColorParams) (sp : TrackColorArgs),
      g ≠ [] → '/' ∉ g →
      TrackColorRoute.matcher [seg "track", g, seg "color"] = some p →
      TrackColorRoute.collect_send_params p b = .ok sp →
      parse_osc_address (TrackColorRoute.build_message sp b).addr =
        [seg "track", g, seg "color"]) ∧
    (∀ (b : Backend) (g n : Seg) (p : TrackSendGuidParams) (sp : TrackSendGuidArgs),
      g ≠ [] → '/' ∉ g → n ≠ [] → '/' ∉ n →
      TrackSendGuidRoute.matcher [seg "track", g, seg "send", n, seg "guid"] =
        some p →
      TrackSendGuidRoute.collect_send_params p b = .ok sp →
      intRepr sp.send_index = n →
      parse_osc_address (TrackSendGuidRoute.build_message sp b).addr =
        [seg "track", g, seg "send", n, seg "guid"]) ∧
    (∀ (b : Backend) (g n : Seg) (p : TrackSendVolumeParams)
        (sp : ExtSetSendVolumeArgs),
      g ≠ [] → '/' ∉ g → n ≠ [] → '/' ∉ n →
      TrackSendVolumeRoute.matcher [seg "track", g, seg "send", n, seg "volume"] =
        some p →
      TrackSendVolumeRoute.collect_send_params p b = .ok sp →
      natRepr sp.send_index = n →
      parse_osc_address (TrackSendVolumeRoute.build_message sp b).addr =
        [seg "track", g, seg "send", n, seg "volume"]) ∧
    (∀ (b : Backend) (g n : Seg) (p : TrackSendPanParams) (sp : ExtSetSendPanArgs),
      g ≠ [] → '/' ∉ g → n ≠ [] → '/' ∉ n →
      TrackSendPanRoute.matcher [seg "track", g, seg "send", n, seg "pan"] =
        some p →
      TrackSendPanRoute.collect_send_params p b = .ok sp →
      natRepr sp.send_index = n →
      parse_osc_address (TrackSendPanRoute.build_message sp b).addr =
        [seg "track", g, seg "send", n, seg "pan"]) := by
  refine ⟨?_, ?_, ?_, ?_, ?_, ?_, ?_, ?_, ?_, ?_, ?_, ?_⟩
  · intro b g p sp hg hgs hm hc
    have hm2 : some (⟨g⟩ : TrackIndexParams) = some p := hm
    injection hm2 with hp
    subst hp
    cases hlk : get_track_by_guid b g with
    | error e =>
      simp only [TrackIndexRoute.collect_send_params, hlk] at hc
      exact Except.noConfusion hc
    | ok track =>
      simp only [TrackIndexRoute.collect_send_params, hlk] at hc
      injection hc with hc2
      subst hc2
      have hguid := get_track_by_guid_guid b g track hlk
      show parse_osc_address
        (seg "/track/" ++ get_track_guid track ++ ('/' :: seg "index")) = _
      rw [hguid]
      exact parse_track_addr3 g _ hg hgs (by decide) (by decide)
  · intro b g p sp hg hgs hm hc
    have hm2 : some (⟨g⟩ : TrackNameParams) = some p := hm
    injection hm2 with hp
    subst hp
    cases hlk : get_track_by_guid b g with
    | error e =>
      simp only [TrackNameRoute.collect_send_params, hlk] at hc
      exact Except.noConfusion hc
    | ok track =>
      cases hname : track.name with
      | none =>
        simp only [TrackNameRoute.collect_send_params, hlk, hname] at hc
        exact Except.noConfusion hc
      | some nm =>
        simp only [TrackNameRoute.collect_send_params, hlk, hname] at hc
        injection hc with hc2
        subst hc2
        have hguid := get_track_by_guid_guid b g track hlk
        show parse_osc_address
          (seg "/track/" ++ get_track_guid track ++ ('/' :: seg "name")) = _
        rw [hguid]
        exact parse_track_addr3 g _ hg hgs (by decide) (by decide)
  · intro b g p sp hg hgs hm hc
    have hm2 : some (⟨g⟩ : TrackSelectedParams) = some p := hm
    injection hm2 with hp
    subst hp
    cases hlk : get_track_by_guid b g with
    | error e =>
      simp only [TrackSelectedRoute.collect_send_params, hlk] at hc
      exact Except.noConfusion hc
    | ok track =>
      simp only [TrackSelectedRoute.collect_send_params, hlk] at hc
      injection hc with hc2
      subst hc2
      have hguid := get_track_by_guid_guid b g track hlk
      show parse_osc_address
        (seg "/track/" ++ get_track_guid track ++ ('/' :: seg "selected")) = _
      rw [hguid]
      exact parse_track_addr3 g _ hg hgs (by decide) (by decide)
  · intro b g p sp hg hgs hm hc
    have hm2 : some (⟨g⟩ : TrackVolumeParams) = some p := hm
    injection hm2 with hp
    subst hp
    cases hlk : get_track_by_guid b g with
    | error e =>
      simp only [TrackVolumeRoute.collect_send_params, hlk] at hc
      exact Except.noConfusion hc
    | ok track =>
      simp only [TrackVolumeRoute.collect_send_params, hlk] at hc
      injection hc with hc2
      subst hc2
      have hguid := get_track_by_guid_guid b g track hlk
      show parse_osc_address
        (seg "/track/" ++ get_track_guid track ++ ('/' :: seg "volume")) = _
      rw [hguid]
      exact parse_track_addr3 g _ hg hgs (by decide) (by decide)
  · intro b g p sp hg hgs hm hc
    have hm2 : some (⟨g⟩ : TrackPanParams) = some p := hm
    injection hm2 with hp
    subst hp
    cases hlk : get_track_by_guid b g with
    | error e =>
      simp only [TrackPanRoute.collect_send_params, hlk] at hc
      exact Except.noConfusion hc
    | ok track =>
      simp only [TrackPanRoute.collect_send_params, hlk] at hc
      injection hc with hc2
      subst hc2
      have hguid := get_track_by_guid_guid b g track hlk
      show parse_osc_address
        (seg "/track/" ++ get_track_guid track ++ ('/' :: seg "pan")) = _
      rw [hguid]
      exact parse_track_addr3 g _ hg hgs (by decide) (by decide)
  · intro b g p sp hg hgs hm hc
    have hm2 : some (⟨g⟩ : TrackMuteParams) = some p := hm
    injection hm2 with hp
    subst hp
    cases hlk : get_track_by_guid b g with
    | error e =>
      simp only [TrackMuteRoute.collect_send_params, hlk] at hc
      exact Except.noConfusion hc
    | ok track =>
      simp only [TrackMuteRoute.collect_send_params, hlk] at hc
      injection hc with hc2
      subst hc2
      have hguid := get_track_by_guid_guid b g track hlk
      show parse_osc_address
        (seg "/track/" ++ get_track_guid track ++ ('/' :: seg "mute")) = _
      rw [hguid]
      exact parse_track_addr3 g _ hg hgs (by decide) (by decide)
  · intro b g p sp hg hgs hm hc
    have hm2 : some (⟨g⟩ : TrackSoloParams) = some p := hm
    injection hm2 with hp
    subst hp
    cases hlk : get_track_by_guid b g with
    | error e =>
      simp only [TrackSoloRoute.collect_send_params, hlk] at hc
      exact Except.noConfusion hc
    | ok track =>
      simp only [TrackSoloRoute.collect_send_params, hlk] at hc
      injection hc with hc2
      subst hc2
      have hguid := get_track_by_guid_guid b g track hlk
      show parse_osc_address
        (seg "/track/" ++ get_track_guid track ++ ('/' :: seg "solo")) = _
      rw [hguid]
      exact parse_track_addr3 g _ hg hgs (by decide) (by decide)
  · intro b g p sp hg hgs hm hc
    have hm2 : some (⟨g⟩ : TrackRecArmParams) = some p := hm
    injection hm2 with hp
    subst hp
    cases hlk : get_track_by_guid b g with
    | error e =>
      simp only [TrackRecArmRoute.collect_send_params, hlk] at hc
      exact Except.noConfusion hc
    | ok track =>
      simp only [TrackRecArmRoute.collect_send_params, hlk] at hc
      injection hc with hc2
      subst hc2
      have hguid := get_track_by_guid_guid b g track hlk
      show parse_osc_address
        (seg "/track/" ++ get_track_guid track ++ ('/' :: seg "rec-arm")) = _
      rw [hguid]
      exact parse_track_addr3 g _ hg hgs (by decide) (by decide)
  · intro b g p sp hg hgs hm hc
    have hm2 : some (⟨g⟩ : TrackColorParams) = some p := hm
    injection hm2 with hp
    subst hp
    cases hlk : get_track_by_guid b g with
    | error e =>
      simp only [TrackColorRoute.collect_send_params, hlk] at hc
      exact Except.noConfusion hc
    | ok track =>
      simp only [TrackColorRoute.collect_send_params, hlk] at hc
      injection hc with hc2
      subst hc2
      have hguid := get_track_by_guid_guid b g track hlk
      show parse_osc_address
        (seg "/track/" ++ get_track_guid track ++ ('/' :: seg "color")) = _
      rw [hguid]
      exact parse_track_addr3 g _ hg hgs (by decide) (by decide)
  · intro b g n p sp hg hgs hn hns hm hc hcanon
    have hm2 : (match parseI32 n with
        | some idx => some (⟨g, idx⟩ : TrackSendGuidParams)
        | none => none) = some p := hm
    cases hpi : parseI32 n with
    | none =>
      simp only [hpi] at hm2
      exact Option.noConfusion hm2
    | some idx =>
      simp only [hpi] at hm2
      injection hm2 with hp
      subst hp
      cases hlk : get_track_by_guid b g with
      | error e =>
        simp only [TrackSendGuidRoute.collect_send_params, hlk] at hc
        exact Except.noConfusion hc
      | ok track =>
        cases hdt : get_track_send_info_desttrack track (u32cast idx) with
        | none =>
          simp only [TrackSendGuidRoute.collect_send_params, hlk, hdt] at hc
          exact Except.noConfusion hc
        | some sg =>
          simp only [TrackSendGuidRoute.collect_send_params, hlk, hdt] at hc
          injection hc with hc2
          subst hc2
          have hguid := get_track_by_guid_guid b g track hlk
          have hcanon2 : intRepr idx = n := hcanon
          show parse_osc_address
            (seg "/track/" ++ get_track_guid track ++ seg "/send/" ++
              intRepr idx ++ ('/' :: seg "guid")) = _
          rw [hguid, hcanon2]
          exact parse_track_addr5 g n _ hg hgs hn hns (by decide) (by decide)
  · intro b g n p sp hg hgs hn hns hm hc hcanon
    have hm2 : (match parseI32 n with
        | some idx => some (⟨g, idx⟩ : TrackSendVolumeParams)
        | none => none) = some p := hm
    cases hpi : parseI32 n with
    | none =>
      simp only [hpi] at hm2
      exact Option.noConfusion hm2
    | some idx =>
      simp only [hpi] at hm2
      injection hm2 with hp
      subst hp
      cases hlk : get_track_by_guid b g with
      | error e =>
        simp only [TrackSendVolumeRoute.collect_send_params, hlk] at hc
        exact Except.noConfusion hc
      | ok track =>
        simp only [TrackSendVolumeRoute.collect_send_params, hlk] at hc
        injection hc with hc2
        subst hc2
        have hguid := get_track_by_guid_guid b g track hlk
        have hcanon2 : natRepr (u32cast idx) = n := hcanon
        show parse_osc_address
          (seg "/track/" ++ get_track_guid track ++ seg "/send/" ++
            natRepr (u32cast idx) ++ ('/' :: seg "volume")) = _
        rw [hguid, hcanon2]
        exact parse_track_addr5 g n _ hg hgs hn hns (by decide) (by decide)
  · intro b g n p sp hg hgs hn hns hm hc hcanon
    have hm2 : (match parseI32 n with
        | some idx => some (⟨g, idx⟩ : TrackSendPanParams)
        | none => none) = some p := hm
    cases hpi : parseI32 n with
    | none =>
      simp only [hpi] at hm2
      exact Option.noConfusion hm2
    | some idx =>
      simp only [hpi] at hm2
      injection hm2 with hp
      subst hp
      cases hlk : get_track_by_guid b g with
      | error e =>
        simp only [TrackSendPanRoute.collect_send_params, hlk] at hc
        exact Except.noConfusion hc
      | ok track =>
        simp only [TrackSendPanRoute.collect_send_params, hlk] at hc
        injection hc with hc2
        subst hc2
        have hguid := get_track_by_guid_guid b g track hlk
        have hcanon2 : natRepr (u32cast idx) = n := hcanon
        show parse_osc_address
          (seg "/track/" ++ get_track_guid track ++ seg "/send/" ++
            natRepr (u32cast idx) ++ ('/' :: seg "pan")) = _
        rw [hguid, hcanon2]
        exact parse_track_addr5 g n _ hg hgs hn hns (by decide) (by decide)

/-- C5 witness: the amended round trip evaluated concretely — a mute
address with GUID g and a send-volume address with canonical index 7
both re-substitute to their original segments. -/
theorem c5_roundtrip_witness :
    parse_osc_address (TrackMuteRoute.build_message ⟨trackG, false⟩ backend1).addr =
      [seg "track", seg "g", seg "mute"] ∧
    parse_osc_address
        (TrackSendVolumeRoute.build_message ⟨trackG, 7, 0⟩ backend1).addr =
      [seg "track", seg "g", seg "send", seg "7", seg "volume"] := by
  constructor
  · exact c5_roundtrip_amended.2.2.2.2.2.1 backend1 (seg "g") ⟨seg "g"⟩
      ⟨trackG, false⟩ (by decide) (by decide) rfl rfl
  · exact c5_roundtrip_amended.2.2.2.2.2.2.2.2.2.2.1 backend1 (seg "g") (seg "7")
      ⟨seg "g", 7⟩ ⟨trackG, 7, 0⟩ (by decide) (by decide) (by decide) (by decide)
      rfl rfl (by decide)
